import Mathlib

/-! A shallow embedding of `src/ioctls/ioctls.c`.

The C file drives the KVM control device through `ioctl`.  The embedding keeps the
program text and makes the outside world explicit:

* an `ioctl` the program issues is answered by a function handed to the model (the
  kernel's answer), and every call issued is recorded, with the argument it carried,
  in a list of `Call`s;
* a pointer into a byte buffer (`memory_start`, `image_data`, the mapped run structure)
  is the function from an offset to the byte stored there; bytes are naturals, stores
  reduce modulo 256;
* C integers are naturals or integers, reduced modulo `2 ^ w` wherever the C type can wrap.

Memory is flat: the C functions are never told the size of a buffer and check none, so
in the model an access is never refused.  Constants and layouts that come from headers
outside `src/` (`ioctls.h`, `<asm/bootparam.h>`, the KVM ABI) carry the values of the
Linux ABI and say so.
-/

namespace Kvm

/-! ## Special registers (`struct kvm_sregs`) -/

/-- Modelled from the spec: `struct kvm_segment` of the KVM ABI, declared in no file
under `src/`; one field per member. -/
structure kvm_segment where
  base : Nat
  limit : Nat
  selector : Nat
  type : Nat
  present : Nat
  dpl : Nat
  db : Nat
  s : Nat
  l : Nat
  g : Nat
  avl : Nat
  unusable : Nat
  padding : Nat
deriving DecidableEq

/-- Modelled from the spec: `struct kvm_dtable` of the KVM ABI, declared in no file under
`src/`. -/
structure kvm_dtable where
  base : Nat
  limit : Nat
  padding : List Nat
deriving DecidableEq

/-- Modelled from the spec: `struct kvm_sregs` of the KVM ABI, declared in no file under
`src/`: the six segment registers, `tr`, `ldt`, the descriptor tables, the control
registers, `efer`, `apic_base` and the interrupt bitmap. -/
structure kvm_sregs where
  cs : kvm_segment
  ds : kvm_segment
  es : kvm_segment
  fs : kvm_segment
  gs : kvm_segment
  ss : kvm_segment
  tr : kvm_segment
  ldt : kvm_segment
  gdt : kvm_dtable
  idt : kvm_dtable
  cr0 : Nat
  cr2 : Nat
  cr3 : Nat
  cr4 : Nat
  cr8 : Nat
  efer : Nat
  apic_base : Nat
  interrupt_bitmap : List Nat
deriving DecidableEq

/-- Conversion of a C `int` to `__u32`: reduction modulo `2 ^ 32`. -/
def u32_of_int (x : Int) : Nat := (x % 4294967296).toNat

/-- The statements `seg.base = 0; seg.limit = ~0; seg.g = 1;` (lines 76-98), on one
segment.  `~0` is the `int` -1, stored into the `__u32` member `limit`. -/
def set_flat (seg : kvm_segment) : kvm_segment :=
  { seg with base := 0, limit := u32_of_int (~~~ (0 : Int)), g := 1 }

/-- Lines 76-102 of `KVM_GET_and_SET_SREGS`: the assignments made to the state that was
read, in the order of the source (cs, ds, fs, gs, es, ss, then the two `db` bits and
`cr0 |= 1`).  An OR with 1 cannot leave the range of the 64-bit member `cr0`. -/
def init_sregs (sregs : kvm_sregs) : kvm_sregs :=
  let sregs := { sregs with cs := set_flat sregs.cs }
  let sregs := { sregs with ds := set_flat sregs.ds }
  let sregs := { sregs with fs := set_flat sregs.fs }
  let sregs := { sregs with gs := set_flat sregs.gs }
  let sregs := { sregs with es := set_flat sregs.es }
  let sregs := { sregs with ss := set_flat sregs.ss }
  let sregs := { sregs with cs := { sregs.cs with db := 1 } }
  let sregs := { sregs with ss := { sregs.ss with db := 1 } }
  { sregs with cr0 := sregs.cr0 ||| 1 }

/-- A control call issued on the vCPU by `KVM_GET_and_SET_SREGS`, with the contents of
the buffer its third argument points at when the call is made. -/
inductive SregsCall where
  | get_sregs (buf : kvm_sregs)
  | set_sregs (buf : kvm_sregs)
deriving DecidableEq

/-- The kernel's side of the two control calls: `get_sregs buf` is the result of
`ioctl(vcpu, KVM_GET_SREGS, &sregs)` and the contents of `sregs` afterwards, `set_sregs`
the result of `ioctl(vcpu, KVM_SET_SREGS, &sregs)`. -/
structure SregsKernel where
  get_sregs : kvm_sregs → Int × kvm_sregs
  set_sregs : kvm_sregs → Int

/-- What a function of the C file returns, with the control calls it issued, oldest first. -/
structure Outcome (call : Type) where
  ret : Int
  calls : List call

/-- The C function `KVM_GET_and_SET_SREGS` (lines 63-112).  `uninit` is the indeterminate
content of the local `sregs` before the read call fills it. -/
def KVM_GET_and_SET_SREGS (k : SregsKernel) (uninit : kvm_sregs) (arm64 : Int) :
    Outcome SregsCall :=
  if arm64 = 0 then
    let r := k.get_sregs uninit
    let ret := r.1
    let sregs := r.2
    if ret = -1 then
      { ret := ret, calls := [SregsCall.get_sregs uninit] }
    else
      let sregs := init_sregs sregs
      let ret := k.set_sregs sregs
      { ret := ret, calls := [SregsCall.get_sregs uninit, SregsCall.set_sregs sregs] }
  else
    { ret := -1, calls := [] }

/-! ## CPUID (`KVM_SET_CPUID2`) -/

/-- Modelled from the spec: `struct kvm_cpuid_entry2` of the KVM ABI, declared in no file
under `src/`. -/
structure kvm_cpuid_entry2 where
  function : Nat
  index : Nat
  flags : Nat
  eax : Nat
  ebx : Nat
  ecx : Nat
  edx : Nat
  padding : List Nat
deriving DecidableEq

/-- Modelled from the spec: `struct kvm_cpuid` is declared in `ioctls.h`, which is not
under `src/`.  It is the header of `struct kvm_cpuid2` (`nent`, `padding`) followed by an
array `entries` of fixed capacity; the capacity is the length of `entries`. -/
structure kvm_cpuid where
  nent : Nat
  padding : Nat
  entries : List kvm_cpuid_entry2
deriving DecidableEq

/-- Modelled from the spec: the hypervisor-signature leaf number `KVM_CPUID_SIGNATURE`
is defined in no file under `src/`; value of the KVM ABI. -/
def KVM_CPUID_SIGNATURE : Nat := 0x40000000

/-- Modelled from the spec: the leaf number `KVM_CPUID_FEATURES`, defined in no file under
`src/`; value of the KVM ABI. -/
def KVM_CPUID_FEATURES : Nat := 0x40000001

/-- The body of the loop of `KVM_SET_CPUID2` (lines 166-173) on the entry it points at. -/
def rewrite_entry (entry : kvm_cpuid_entry2) : kvm_cpuid_entry2 :=
  if entry.function = KVM_CPUID_SIGNATURE then
    { entry with eax := KVM_CPUID_FEATURES, ebx := 0x4b4d564b, ecx := 0x564b4d56, edx := 0x4d }
  else
    entry

/-- One turn of the loop of lines 164-174: the body applied to `cpuid.entries[i]`.  An
index beyond the array changes nothing in the model. -/
def rewrite_at (cpuid : kvm_cpuid) (i : Nat) : kvm_cpuid :=
  { cpuid with entries := List.modify rewrite_entry i cpuid.entries }

/-- The loop of lines 164-174: `for (i = 0; i < cpuid.nent; i++)`. -/
def rewrite_cpuid (cpuid : kvm_cpuid) : kvm_cpuid :=
  (List.range cpuid.nent).foldl rewrite_at cpuid

/-- A control call issued by `KVM_SET_CPUID2`, with the buffer it carried. -/
inductive CpuidCall where
  | get_supported_cpuid (buf : kvm_cpuid)
  | set_cpuid2 (buf : kvm_cpuid)
deriving DecidableEq

/-- The kernel's side: `get_supported_cpuid buf` is the result of the query on `kvm_fd`
and the contents of the buffer afterwards, `set_cpuid2` the result of the install call
on `vcpu_fd`. -/
structure CpuidKernel where
  get_supported_cpuid : kvm_cpuid → Int × kvm_cpuid
  set_cpuid2 : kvm_cpuid → Int

/-- The C function `KVM_SET_CPUID2` (lines 157-178).  `uninit` is the indeterminate
content of the local `cpuid`; the result `res` of the query is overwritten, unread, by
the result of the install call. -/
def KVM_SET_CPUID2 (k : CpuidKernel) (uninit : kvm_cpuid) : Outcome CpuidCall :=
  let cpuid := { uninit with nent := uninit.entries.length }
  let r := k.get_supported_cpuid cpuid
  let queried := r.2
  let rewritten := rewrite_cpuid queried
  let res := k.set_cpuid2 rewritten
  { ret := res,
    calls := [CpuidCall.get_supported_cpuid cpuid, CpuidCall.set_cpuid2 rewritten] }

/-! ## Byte buffers -/

/-- A byte buffer seen from a pointer: the byte at each offset from it. -/
abbrev Mem := Nat → Nat

/-- Read of an `unsigned char`. -/
def load8 (m : Mem) (a : Nat) : Nat := m a % 256

/-- Read of a little-endian `__u16`. -/
def load16 (m : Mem) (a : Nat) : Nat := load8 m a + 256 * load8 m (a + 1)

/-- Read of a little-endian `__u32`. -/
def load32 (m : Mem) (a : Nat) : Nat := load16 m a + 65536 * load16 m (a + 2)

/-- Read of a little-endian `__u64`. -/
def load64 (m : Mem) (a : Nat) : Nat := load32 m a + 4294967296 * load32 m (a + 4)

/-- Store of one byte. -/
def store8 (m : Mem) (a v : Nat) : Mem := fun x => if x = a then v % 256 else m x

/-- Store of a little-endian `__u16`. -/
def store16 (m : Mem) (a v : Nat) : Mem := store8 (store8 m a v) (a + 1) (v / 256)

/-- Store of a little-endian `__u32`. -/
def store32 (m : Mem) (a v : Nat) : Mem := store16 (store16 m a v) (a + 2) (v / 65536)

/-- C `memset(m + dst, c, n)`. -/
def memset (m : Mem) (dst c n : Nat) : Mem :=
  fun x => if dst ≤ x ∧ x < dst + n then c % 256 else m x

/-- C `memmove(m + dst, src + from, n)` (and `memcpy`) between two buffers that do not
overlap, as the guest memory and the image or a string literal. -/
def memmove (m : Mem) (dst : Nat) (src : Mem) (start n : Nat) : Mem :=
  fun x => if dst ≤ x ∧ x < dst + n then src (start + (x - dst)) else m x

/-- The bytes of a C string literal, its terminating zero included (and zeros after). -/
def c_string (s : String) : Mem := fun i => (s.toList.map Char.toNat).getD i 0

/-! ## The guest image loader (`load_guest`) -/

/-- Modelled from the spec: `struct boot_params` comes from `<asm/bootparam.h>`, which is
not under `src/`; its byte-exact layout is the external contract of the Linux x86 boot
protocol.  The structure is 4096 bytes long. -/
def sizeof_boot_params : Nat := 4096

/-- Modelled from the spec: offset in `struct boot_params` of the `__u8` member
`hdr.setup_sects`, the first of `hdr` (`<asm/bootparam.h>` is not under `src/`; Linux x86
boot protocol). -/
def off_setup_sects : Nat := 0x1f1

/-- Modelled from the spec: offset in `struct boot_params` of the `__u16` member
`hdr.ram_size` (`<asm/bootparam.h>` is not under `src/`; Linux x86 boot protocol). -/
def off_ram_size : Nat := 0x1f8

/-- Modelled from the spec: offset in `struct boot_params` of the `__u16` member
`hdr.vid_mode` (`<asm/bootparam.h>` is not under `src/`; Linux x86 boot protocol). -/
def off_vid_mode : Nat := 0x1fa

/-- Modelled from the spec: offset in `struct boot_params` of the `__u8` member
`hdr.type_of_loader` (`<asm/bootparam.h>` is not under `src/`; Linux x86 boot protocol). -/
def off_type_of_loader : Nat := 0x210

/-- Modelled from the spec: offset in `struct boot_params` of the `__u8` member
`hdr.loadflags` (`<asm/bootparam.h>` is not under `src/`; Linux x86 boot protocol). -/
def off_loadflags : Nat := 0x211

/-- Modelled from the spec: offset in `struct boot_params` of the `__u32` member
`hdr.ramdisk_image` (`<asm/bootparam.h>` is not under `src/`; Linux x86 boot protocol). -/
def off_ramdisk_image : Nat := 0x218

/-- Modelled from the spec: offset in `struct boot_params` of the `__u16` member
`hdr.heap_end_ptr` (`<asm/bootparam.h>` is not under `src/`; Linux x86 boot protocol). -/
def off_heap_end_ptr : Nat := 0x224

/-- Modelled from the spec: offset in `struct boot_params` of the `__u8` member
`hdr.ext_loader_ver` (`<asm/bootparam.h>` is not under `src/`; Linux x86 boot protocol). -/
def off_ext_loader_ver : Nat := 0x226

/-- Modelled from the spec: offset in `struct boot_params` of the `__u32` member
`hdr.cmd_line_ptr` (`<asm/bootparam.h>` is not under `src/`; Linux x86 boot protocol). -/
def off_cmd_line_ptr : Nat := 0x228

/-- Modelled from the spec: offset in `struct boot_params` of the `__u32` member
`hdr.cmdline_size` (`<asm/bootparam.h>` is not under `src/`; Linux x86 boot protocol). -/
def off_cmdline_size : Nat := 0x238

/-- Modelled from the spec: load flag `CAN_USE_HEAP` ("heap-usable") of
`<asm/bootparam.h>`, bit 7. -/
def CAN_USE_HEAP : Nat := 0x80

/-- Modelled from the spec: load flag `KEEP_SEGMENTS` ("segment-preserving") of
`<asm/bootparam.h>`, bit 6. -/
def KEEP_SEGMENTS : Nat := 0x40

/-- Offset of the boot-params block from `memory_start` (line 189). -/
def boot : Nat := 0x10000

/-- Offset of the command line from `memory_start` (line 190). -/
def cmdline : Nat := 0x20000

/-- Offset of the kernel from `memory_start` (line 191). -/
def kernel : Nat := 0x100000

/-- A C assignment expression `x = v`: its value is the value assigned. -/
def assign (_x v : Nat) : Nat := v

/-- Lines 194-195: `setup_sectors` is read from the header and then assigned 1 inside
the expression that computes `setupsz`. -/
def setupsz (setup_sects : Nat) : Nat :=
  let setup_sectors := setup_sects
  (assign setup_sectors 1) * 512

/-- Lines 192-193 of `load_guest`: the boot-params block is zeroed, then filled from the
first `sizeof(struct boot_params)` bytes at `image_data`. -/
def load_guest_copy (memory image : Mem) : Mem :=
  let m := memset memory boot 0 sizeof_boot_params
  memmove m boot image 0 sizeof_boot_params

/-- Lines 196-203 of `load_guest`: the protocol fields of `boot->hdr` are overwritten. -/
def load_guest_fields (m : Mem) : Mem :=
  let m := store16 m (boot + off_vid_mode) 0xFFFF
  let m := store8 m (boot + off_type_of_loader) 0xFF
  let m := store32 m (boot + off_ramdisk_image) 0x0
  let m := store16 m (boot + off_ram_size) 0x0
  let m := store8 m (boot + off_loadflags)
    (load8 m (boot + off_loadflags) ||| (CAN_USE_HEAP ||| 0x01 ||| KEEP_SEGMENTS))
  let m := store16 m (boot + off_heap_end_ptr) 0xFE00
  let m := store8 m (boot + off_ext_loader_ver) 0x0
  store32 m (boot + off_cmd_line_ptr) 0x20000

/-- The guest memory after lines 192-203 of `load_guest` (the computation of `setupsz` at
lines 194-195 writes nothing). -/
def load_guest_boot (memory image : Mem) : Mem :=
  load_guest_fields (load_guest_copy memory image)

/-- Lines 205-206 of `load_guest`: `hdr.cmdline_size` bytes are zeroed at the command
line offset, then the 13 bytes of the literal `"console=tty0"` are copied there. -/
def load_guest_cmdline (m : Mem) : Mem :=
  let m := memset m cmdline 0 (load32 m (boot + off_cmdline_size))
  memmove m cmdline (c_string "console=tty0") 0 13

/-- Line 207 of `load_guest`: the image after `setupsz` bytes is copied to the kernel
offset; `image_size - setupsz` is computed in `unsigned long`, modulo `2 ^ 64`. -/
def load_guest_kernel (m image : Mem) (image_size setupsz : Nat) : Mem :=
  memmove m kernel image setupsz ((image_size + 2 ^ 64 - setupsz) % 2 ^ 64)

/-- The C function `load_guest` (lines 186-209): the value returned and the guest memory
afterwards.  `memory` is the buffer at `memory_start`, `image` the bytes from
`image_data` on; the function is never told the size of either buffer. -/
def load_guest (memory image : Mem) (image_size : Nat) : Int × Mem :=
  let m := load_guest_copy memory image
  let setupsz := setupsz (load8 m (boot + off_setup_sects))
  let m := load_guest_fields m
  let m := load_guest_cmdline m
  let m := load_guest_kernel m image image_size setupsz
  (0, m)

/-! ## The run loop (`run_vm`) -/

/-- Modelled from the spec: exit reason `KVM_EXIT_IO` (port I/O), defined in no file under
`src/`; value of the KVM ABI. -/
def KVM_EXIT_IO : Nat := 2

/-- Modelled from the spec: exit reason `KVM_EXIT_MMIO`, value of the KVM ABI. -/
def KVM_EXIT_MMIO : Nat := 6

/-- Modelled from the spec: exit reason `KVM_EXIT_SHUTDOWN`, value of the KVM ABI. -/
def KVM_EXIT_SHUTDOWN : Nat := 8

/-- Modelled from the spec: direction `KVM_EXIT_IO_IN`, value of the KVM ABI. -/
def KVM_EXIT_IO_IN : Nat := 0

/-- Modelled from the spec: direction `KVM_EXIT_IO_OUT`, value of the KVM ABI. -/
def KVM_EXIT_IO_OUT : Nat := 1

/-- Modelled from the spec: the layout of `struct kvm_run` is the external contract of
the KVM ABI, declared in no file under `src/`.  Offset of the `__u32` member
`exit_reason`. -/
def off_exit_reason : Nat := 8

/-- Modelled from the spec: offset of the `__u16` member `flags` of `struct kvm_run`
(KVM ABI). -/
def off_flags : Nat := 14

/-- Modelled from the spec: offset of the `__u8` member `io.direction` of `struct kvm_run`
(KVM ABI). -/
def off_io_direction : Nat := 32

/-- Modelled from the spec: offset of the `__u8` member `io.size` of `struct kvm_run`
(KVM ABI). -/
def off_io_size : Nat := 33

/-- Modelled from the spec: offset of the `__u16` member `io.port` of `struct kvm_run`
(KVM ABI). -/
def off_io_port : Nat := 34

/-- Modelled from the spec: offset of the `__u32` member `io.count` of `struct kvm_run`
(KVM ABI). -/
def off_io_count : Nat := 36

/-- Modelled from the spec: offset of the `__u64` member `io.data_offset` of `struct kvm_run`
(KVM ABI). -/
def off_io_data_offset : Nat := 40

/-- The member `run->exit_reason`. -/
def exit_reason (run : Mem) : Nat := load32 run off_exit_reason

/-- The member `run->io.direction`. -/
def io_direction (run : Mem) : Nat := load8 run off_io_direction

/-- The member `run->io.size`. -/
def io_size (run : Mem) : Nat := load8 run off_io_size

/-- The member `run->io.port`. -/
def io_port (run : Mem) : Nat := load16 run off_io_port

/-- The member `run->io.count`. -/
def io_count (run : Mem) : Nat := load32 run off_io_count

/-- The member `run->io.data_offset`. -/
def io_data_offset (run : Mem) : Nat := load64 run off_io_data_offset

/-- An `unsigned int` passed where `printf` reads an `int`: the two's complement reading. -/
def int_of_u32 (v : Nat) : Int :=
  if v % 2 ^ 32 < 2 ^ 31 then (v % 2 ^ 32 : Nat) else (v % 2 ^ 32 : Nat) - 2 ^ 32

/-- The characters of the C string at `s + a`, at most `n` of them: reading stops
before the first zero byte. -/
def c_chars (s : Mem) : Nat → Nat → List Nat
  | _, 0 => []
  | a, n + 1 => if load8 s a = 0 then [] else load8 s a :: c_chars s (a + 1) n

/-- What `printf("%.*s", prec, s + a)` writes: the characters of the string, at most
`prec` of them; a negative precision counts as none given, and the string is then read
to its zero byte (in the model, to the end `limit` of the buffer at the latest). -/
def printf_prec_s (prec : Int) (s : Mem) (a limit : Nat) : List Nat :=
  if prec < 0 then c_chars s a (limit - a) else c_chars s a prec.toNat

/-- The bytes of a string of the program text (ASCII). -/
def bytes_of (s : String) : List Nat := s.toList.map Char.toNat

/-- What `printf("reason: %d\n", v)` writes for an `unsigned int` argument `v`. -/
def printf_reason (v : Nat) : List Nat :=
  bytes_of "reason: " ++ bytes_of (toString (int_of_u32 v)) ++ bytes_of "\n"

/-- One return of the blocking call `KVM_RUN`: from the run structure as the program
left it, the result of the call and the run structure as the hypervisor leaves it. -/
abbrev Resume := Mem → Int × Mem

/-- What `run_vm` has done so far: the shared run structure, the bytes written to
standard output, and the number of `KVM_RUN` calls issued. -/
structure RunState where
  run : Mem
  out : List Nat
  resumes : Nat

/-- The loop of `run_vm` (lines 227-258) against the successive returns of `KVM_RUN`.
The value is what `run_vm` returns, or `none` when the last call issued never returns
(no return is left), and the state reached. -/
def run_vm_loop (vcpu_map_size : Nat) : List Resume → RunState → Option Int × RunState
  | [], st => (none, { st with resumes := st.resumes + 1 })
  | r :: rest, st =>
    let ret := (r st.run).1
    let run := (r st.run).2
    let st := { st with run := run, resumes := st.resumes + 1 }
    if ret < 0 then
      (some (-1), st)
    else if exit_reason run = KVM_EXIT_IO then
      if io_port run = 0x3f8 ∧ io_direction run = KVM_EXIT_IO_OUT then
        let size := io_size run
        let offset := io_data_offset run
        let text := printf_prec_s (int_of_u32 (size * io_count run)) run offset vcpu_map_size
        run_vm_loop vcpu_map_size rest { st with out := st.out ++ text }
      else if io_port run = 0x3f8 + 5 ∧ io_direction run = KVM_EXIT_IO_IN then
        let value := io_data_offset run
        run_vm_loop vcpu_map_size rest { st with run := store8 run value 0x20 }
      else
        run_vm_loop vcpu_map_size rest st
    else if exit_reason run = KVM_EXIT_SHUTDOWN then
      (some 0, { st with out := st.out ++ bytes_of "shutdown\n" })
    else
      (some (-1), { st with out := st.out ++ printf_reason (exit_reason run) })

/-- The C function `run_vm` (lines 223-259).  `mapping` is what the run structure holds
when `mmap` returns it, `kvm_run` the successive returns of `KVM_RUN`. -/
def run_vm (kvm_run : List Resume) (vcpu_map_size : Nat) (mapping : Mem) :
    Option Int × RunState :=
  let run := store16 mapping off_flags 65535
  run_vm_loop vcpu_map_size kvm_run { run := run, out := [], resumes := 0 }

/-- A hypervisor return reporting a port I/O exit: result 0, the `io` members set, and
`data` placed at `data_offset` in the run structure. -/
def exit_io (port direction size count data_offset : Nat) (data : List Nat) : Resume :=
  fun run =>
    let run := store32 run off_exit_reason KVM_EXIT_IO
    let run := store8 run off_io_direction direction
    let run := store8 run off_io_size size
    let run := store16 run off_io_port port
    let run := store32 run off_io_count count
    let run := store32 (store32 run off_io_data_offset data_offset)
      (off_io_data_offset + 4) (data_offset / 4294967296)
    (0, fun x => if data_offset ≤ x ∧ x < data_offset + data.length
      then data.getD (x - data_offset) 0 else run x)

/-- A hypervisor return reporting an exit with the given reason and nothing else changed. -/
def exit_with (reason : Nat) : Resume :=
  fun run => (0, store32 run off_exit_reason reason)

/-! ## Inputs used as examples -/

/-- A segment descriptor with every member zero. -/
def zero_segment : kvm_segment :=
  { base := 0, limit := 0, selector := 0, type := 0, present := 0, dpl := 0, db := 0,
    s := 0, l := 0, g := 0, avl := 0, unusable := 0, padding := 0 }

/-- A special-register state with every member zero. -/
def zero_sregs : kvm_sregs :=
  { cs := zero_segment, ds := zero_segment, es := zero_segment, fs := zero_segment,
    gs := zero_segment, ss := zero_segment, tr := zero_segment, ldt := zero_segment,
    gdt := { base := 0, limit := 0, padding := [0, 0, 0] },
    idt := { base := 0, limit := 0, padding := [0, 0, 0] },
    cr0 := 0, cr2 := 0, cr3 := 0, cr4 := 0, cr8 := 0, efer := 0, apic_base := 0,
    interrupt_bitmap := [0, 0, 0, 0] }

/-- A kernel whose read call succeeds and returns a real-mode state (cr0 = 0x10, code
segment at 0xffff0000 with a 64 KiB limit), and whose write-back call succeeds. -/
def reset_kernel : SregsKernel :=
  { get_sregs := fun _ =>
      (0, { zero_sregs with
              cs := { zero_segment with base := 0xffff0000, limit := 0xffff, selector := 0xf000 },
              cr0 := 0x10 }),
    set_sregs := fun _ => 0 }

/-- A buffer of zero bytes. -/
def zero_mem : Mem := fun _ => 0

/-- A buffer of 0xFF bytes. -/
def ff_mem : Mem := fun _ => 0xFF

/-- An image of `n` bytes 0xAA, followed in its buffer by zero bytes. -/
def aa_image (n : Nat) : Mem := fun i => if i < n then 0xAA else 0

/-- An image whose header declares `cmdline_size = 0x800` (and `setup_sects = 4`). -/
def cmdline_image : Mem :=
  store8 (store32 zero_mem off_cmdline_size 0x800) off_setup_sects 4

/-- Offsets, in the boot-params block, of the bytes of the eight members that lines
196-203 of `load_guest` assign. -/
def overwritten (i : Nat) : Bool :=
  (decide (off_ram_size ≤ i) && decide (i < off_ram_size + 2)) ||
  (decide (off_vid_mode ≤ i) && decide (i < off_vid_mode + 2)) ||
  decide (i = off_type_of_loader) || decide (i = off_loadflags) ||
  (decide (off_ramdisk_image ≤ i) && decide (i < off_ramdisk_image + 4)) ||
  (decide (off_heap_end_ptr ≤ i) && decide (i < off_heap_end_ptr + 2)) ||
  decide (i = off_ext_loader_ver) ||
  (decide (off_cmd_line_ptr ≤ i) && decide (i < off_cmd_line_ptr + 4))

/-- A run structure reporting a port I/O exit that `run_vm` serves: the serial data
port with direction OUT, or the line-status port with direction IN. -/
def handled_io (run : Mem) : Prop :=
  exit_reason run = KVM_EXIT_IO ∧
    ((io_port run = 0x3f8 ∧ io_direction run = KVM_EXIT_IO_OUT) ∨
     (io_port run = 0x3f8 + 5 ∧ io_direction run = KVM_EXIT_IO_IN))

/-- The exit: the two bytes "hi" written to the serial data port (size 1, count 2). -/
def hi_exit : Resume := exit_io 0x3f8 KVM_EXIT_IO_OUT 1 2 4096 [104, 105]

/-- The exit: a one-byte read of the serial line-status port. -/
def status_exit : Resume := exit_io 0x3fd KVM_EXIT_IO_IN 1 1 4096 []

/-- The exit sequence: "hi" written to the data port, a read of the line-status port,
shutdown. -/
def hi_script : List Resume := [hi_exit, status_exit, exit_with KVM_EXIT_SHUTDOWN]

/-- The exit: the three bytes 'a', 0, 'b' written to the serial data port (size 1,
count 3). -/
def nul_exit : Resume := exit_io 0x3f8 KVM_EXIT_IO_OUT 1 3 4096 [97, 0, 98]

/-- The exit sequence: the three bytes 'a', 0, 'b' written to the data port, shutdown. -/
def nul_script : List Resume := [nul_exit, exit_with KVM_EXIT_SHUTDOWN]

/-- The exit: a byte written to port 0x80. -/
def port80_exit : Resume := exit_io 0x80 KVM_EXIT_IO_OUT 1 1 4096 [97]

/-- The exit sequence: a byte written to port 0x80, then shutdown. -/
def port80_script : List Resume := [port80_exit, exit_with KVM_EXIT_SHUTDOWN]

/-- The state `run_vm` enters its loop with, on a mapping of zero bytes. -/
def start_state : RunState :=
  { run := store16 zero_mem off_flags 65535, out := [], resumes := 0 }

/-! ## General registers (`KVM_SET_REGS`) -/

/-- Modelled from the spec: `struct kvm_regs` of the KVM ABI, declared in no file under
`src/`: the sixteen general registers, `rip` and `rflags`. -/
structure kvm_regs where
  rax : Nat
  rbx : Nat
  rcx : Nat
  rdx : Nat
  rsi : Nat
  rdi : Nat
  rsp : Nat
  rbp : Nat
  r8 : Nat
  r9 : Nat
  r10 : Nat
  r11 : Nat
  r12 : Nat
  r13 : Nat
  r14 : Nat
  r15 : Nat
  rip : Nat
  rflags : Nat
deriving DecidableEq

/-- A control call issued on the vCPU by `KVM_SET_REGS`, with the buffer it carried. -/
inductive RegsCall where
  | set_regs (buf : kvm_regs)
deriving DecidableEq

/-- The C function `KVM_SET_REGS` (lines 117-125).  `uninit` is the indeterminate content
of the local `regs`, `set_regs` the kernel's result for the set-registers call. -/
def KVM_SET_REGS (set_regs : kvm_regs → Int) (uninit : kvm_regs) : Outcome RegsCall :=
  let regs := { uninit with rflags := 2 }
  let regs := { regs with rip := 0x100000 }
  let regs := { regs with rsi := 0x10000 }
  { ret := set_regs regs, calls := [RegsCall.set_regs regs] }

/-! ## The bytes `load_guest` reads and writes -/

/-- The buffer an access of `load_guest` falls in: the guest memory at `memory_start`,
the image at `image_data`, or the string literal of line 206. -/
inductive Buffer where
  | guest
  | image
  | literal
deriving DecidableEq

/-- One access of `load_guest`: `len` bytes from offset `start` of a buffer, read
(`write = false`) or written. -/
structure Access where
  buf : Buffer
  write : Bool
  start : Nat
  len : Nat
deriving DecidableEq

/-- The accesses `load_guest` makes, statement by statement, in the order of lines
192-207, with the lengths the statements compute. -/
def load_guest_accesses (memory image : Mem) (image_size : Nat) : List Access :=
  let m := load_guest_copy memory image
  let setupsz := setupsz (load8 m (boot + off_setup_sects))
  let filled := load_guest_fields m
  let n := (image_size + 2 ^ 64 - setupsz) % 2 ^ 64
  [ { buf := Buffer.guest, write := true, start := boot, len := sizeof_boot_params },
    { buf := Buffer.image, write := false, start := 0, len := sizeof_boot_params },
    { buf := Buffer.guest, write := true, start := boot, len := sizeof_boot_params },
    { buf := Buffer.guest, write := false, start := boot + off_setup_sects, len := 1 },
    { buf := Buffer.guest, write := true, start := boot + off_vid_mode, len := 2 },
    { buf := Buffer.guest, write := true, start := boot + off_type_of_loader, len := 1 },
    { buf := Buffer.guest, write := true, start := boot + off_ramdisk_image, len := 4 },
    { buf := Buffer.guest, write := true, start := boot + off_ram_size, len := 2 },
    { buf := Buffer.guest, write := false, start := boot + off_loadflags, len := 1 },
    { buf := Buffer.guest, write := true, start := boot + off_loadflags, len := 1 },
    { buf := Buffer.guest, write := true, start := boot + off_heap_end_ptr, len := 2 },
    { buf := Buffer.guest, write := true, start := boot + off_ext_loader_ver, len := 1 },
    { buf := Buffer.guest, write := true, start := boot + off_cmd_line_ptr, len := 4 },
    { buf := Buffer.guest, write := false, start := boot + off_cmdline_size, len := 4 },
    { buf := Buffer.guest, write := true, start := cmdline,
      len := load32 filled (boot + off_cmdline_size) },
    { buf := Buffer.literal, write := false, start := 0, len := 13 },
    { buf := Buffer.guest, write := true, start := cmdline, len := 13 },
    { buf := Buffer.image, write := false, start := setupsz, len := n },
    { buf := Buffer.guest, write := true, start := kernel, len := n } ]

/-- An access stays inside a buffer of `size` bytes: it touches no byte, or ends at
`size` at the latest. -/
def inside (size : Nat) (a : Access) : Prop := a.len = 0 ∨ a.start + a.len ≤ size

/-- An image of `n` zero bytes whose header declares `cmdline_size = 0xFFFFFFFF`. -/
def huge_cmdline_image : Mem := store32 zero_mem off_cmdline_size 0xFFFFFFFF

/-- The little-endian bytes of a `__u32`, as a store leaves them in memory. -/
def le_bytes (v : Nat) : List Nat := (List.range 4).map (store32 zero_mem 0 v)

/-- A general-register state with every member zero. -/
def zero_regs : kvm_regs :=
  { rax := 0, rbx := 0, rcx := 0, rdx := 0, rsi := 0, rdi := 0, rsp := 0, rbp := 0,
    r8 := 0, r9 := 0, r10 := 0, r11 := 0, r12 := 0, r13 := 0, r14 := 0, r15 := 0,
    rip := 0, rflags := 0 }

/-- A CPUID entry with the given function and every other member zero. -/
def leaf (function : Nat) : kvm_cpuid_entry2 :=
  { function := function, index := 0, flags := 0, eax := 0, ebx := 0, ecx := 0, edx := 0,
    padding := [0, 0, 0] }

/-- A local `cpuid` buffer of capacity 2 holding stale entries, one of them with the
signature function. -/
def stale_cpuid : kvm_cpuid :=
  { nent := 7, padding := 0, entries := [leaf 0, leaf KVM_CPUID_SIGNATURE] }

/-- A kernel whose supported-CPUID query fails, leaving the buffer as it was, and whose
install call succeeds. -/
def failing_query_kernel : CpuidKernel :=
  { get_supported_cpuid := fun buf => (-1, buf), set_cpuid2 := fun _ => 0 }

/-- A kernel whose supported-CPUID query returns the two leaves 0 and
`KVM_CPUID_SIGNATURE`, and whose install call succeeds. -/
def two_leaf_kernel : CpuidKernel :=
  { get_supported_cpuid := fun buf =>
      (0, { buf with nent := 2, entries := [leaf 0, leaf KVM_CPUID_SIGNATURE] }),
    set_cpuid2 := fun _ => 0 }

/-- A return of `KVM_RUN` that fails: result -1, the run structure left as it was. -/
def failed_resume : Resume := fun run => (-1, run)

/-! ## Special registers: what is written back -/

/-- C1: when `KVM_GET_and_SET_SREGS` is called with `arm64 == 0` and the read call does not
fail, whatever state the read call returned, the function issues the read call and then
the write-back call, and the state it passes to the write-back call has bit 0 of `cr0`
set and, on each of cs, ds, es, fs, gs, ss, base 0, limit 0xFFFFFFFF and g = 1. -/
theorem sregs_written_back_flat (k : SregsKernel) (uninit : kvm_sregs)
    (hread : (k.get_sregs uninit).1 ≠ -1) :
    ∃ written : kvm_sregs,
      (KVM_GET_and_SET_SREGS k uninit 0).calls
        = [SregsCall.get_sregs uninit, SregsCall.set_sregs written] ∧
      written = init_sregs (k.get_sregs uninit).2 ∧
      written.cr0.testBit 0 = true ∧
      ∀ seg ∈ [written.cs, written.ds, written.es, written.fs, written.gs, written.ss],
        seg.base = 0 ∧ seg.limit = 0xFFFFFFFF ∧ seg.g = 1 := by
  refine ⟨init_sregs (k.get_sregs uninit).2, ?_, rfl, ?_, ?_⟩
  · simp [KVM_GET_and_SET_SREGS, hread]
  · simp [init_sregs, Nat.testBit_or]
  · intro seg hseg
    simp only [List.mem_cons, List.mem_singleton, List.not_mem_nil, or_false] at hseg
    rcases hseg with h | h | h | h | h | h <;> subst h <;>
      simp [init_sregs, set_flat, u32_of_int] <;> decide

/-- C1 at a kernel that returns a real-mode reset state: the read succeeds and the state
written back is flat. -/
theorem sregs_written_back_flat_witness :
    (reset_kernel.get_sregs zero_sregs).1 ≠ -1 ∧
    ∃ written : kvm_sregs,
      (KVM_GET_and_SET_SREGS reset_kernel zero_sregs 0).calls
        = [SregsCall.get_sregs zero_sregs, SregsCall.set_sregs written] ∧
      written = init_sregs (reset_kernel.get_sregs zero_sregs).2 ∧
      written.cr0.testBit 0 = true ∧
      ∀ seg ∈ [written.cs, written.ds, written.es, written.fs, written.gs, written.ss],
        seg.base = 0 ∧ seg.limit = 0xFFFFFFFF ∧ seg.g = 1 :=
  ⟨by decide, sregs_written_back_flat reset_kernel zero_sregs (by decide)⟩

/-! ## Byte buffers: reads after writes -/

theorem store8_ne (m : Mem) (a v x : Nat) (h : x ≠ a) : store8 m a v x = m x := by
  simp [store8, h]

theorem store16_ne (m : Mem) (a v x : Nat) (h : x < a ∨ a + 2 ≤ x) :
    store16 m a v x = m x := by
  unfold store16
  rw [store8_ne _ _ _ _ (by omega), store8_ne _ _ _ _ (by omega)]

theorem store32_ne (m : Mem) (a v x : Nat) (h : x < a ∨ a + 4 ≤ x) :
    store32 m a v x = m x := by
  unfold store32
  rw [store16_ne _ _ _ _ (by omega), store16_ne _ _ _ _ (by omega)]

theorem memset_ne (m : Mem) (dst c n x : Nat) (h : x < dst ∨ dst + n ≤ x) :
    memset m dst c n x = m x := by
  unfold memset
  rw [if_neg (by omega)]

theorem memset_in (m : Mem) (dst c n x : Nat) (h1 : dst ≤ x) (h2 : x < dst + n) :
    memset m dst c n x = c % 256 := by
  unfold memset
  rw [if_pos ⟨h1, h2⟩]

theorem memmove_ne (m src : Mem) (dst start n x : Nat) (h : x < dst ∨ dst + n ≤ x) :
    memmove m dst src start n x = m x := by
  unfold memmove
  rw [if_neg (by omega)]

theorem memmove_in (m src : Mem) (dst start n x : Nat) (h1 : dst ≤ x) (h2 : x < dst + n) :
    memmove m dst src start n x = src (start + (x - dst)) := by
  unfold memmove
  rw [if_pos ⟨h1, h2⟩]

/-! ## The guest image loader -/

/-- Below the command line offset, the guest memory after `load_guest` is what lines
192-203 left. -/
theorem load_guest_below_cmdline (memory image : Mem) (image_size x : Nat)
    (hx : x < cmdline) :
    (load_guest memory image image_size).2 x = load_guest_boot memory image x := by
  have hk : x < kernel := by unfold cmdline at hx; unfold kernel; omega
  simp only [load_guest, load_guest_kernel, load_guest_cmdline, load_guest_boot]
  rw [memmove_ne _ _ _ _ _ _ (Or.inl hk), memmove_ne _ _ _ _ _ _ (Or.inl hx),
    memset_ne _ _ _ _ _ (Or.inl hx)]

/-- Below the kernel offset, the guest memory after `load_guest` is what lines 192-206
left. -/
theorem load_guest_below_kernel (memory image : Mem) (image_size x : Nat)
    (hx : x < kernel) :
    (load_guest memory image image_size).2 x
      = load_guest_cmdline (load_guest_boot memory image) x := by
  simp only [load_guest, load_guest_kernel, load_guest_boot]
  rw [memmove_ne _ _ _ _ _ _ (Or.inl hx)]

/-- Lines 192-203 leave, outside the assigned members, the bytes found at `image_data`. -/
theorem load_guest_boot_copy (memory image : Mem) (i : Nat) (hi : i < sizeof_boot_params)
    (hf : overwritten i = false) : load_guest_boot memory image (boot + i) = image i := by
  simp [overwritten, off_ram_size, off_vid_mode, off_type_of_loader, off_loadflags,
    off_ramdisk_image, off_heap_end_ptr, off_ext_loader_ver, off_cmd_line_ptr] at hf
  simp only [sizeof_boot_params] at hi
  simp only [load_guest_boot, load_guest_fields, load_guest_copy, boot, off_ram_size,
    off_vid_mode, off_type_of_loader, off_loadflags, off_ramdisk_image, off_heap_end_ptr,
    off_ext_loader_ver, off_cmd_line_ptr, sizeof_boot_params]
  rw [store32_ne _ _ _ _ (by omega), store8_ne _ _ _ _ (by omega), store16_ne _ _ _ _ (by omega),
    store8_ne _ _ _ _ (by omega), store16_ne _ _ _ _ (by omega), store32_ne _ _ _ _ (by omega),
    store8_ne _ _ _ _ (by omega), store16_ne _ _ _ _ (by omega),
    memmove_in _ _ _ _ _ _ (by omega) (by omega)]
  have hsub : 0 + (65536 + i - 65536) = i := by omega
  rw [hsub]

/-- The byte `hdr.loadflags` that lines 192-203 leave: the byte found in the image with
the three flags or-ed in. -/
theorem load_guest_boot_loadflags (memory image : Mem) :
    load_guest_boot memory image (boot + off_loadflags)
      = (image off_loadflags % 256 ||| (CAN_USE_HEAP ||| 0x01 ||| KEEP_SEGMENTS)) % 256 := by
  simp [load_guest_boot, load_guest_fields, load_guest_copy, store32, store16, store8, load8,
    memmove, boot, off_vid_mode, off_type_of_loader, off_ramdisk_image, off_ram_size,
    off_heap_end_ptr, off_ext_loader_ver, off_cmd_line_ptr, off_loadflags, sizeof_boot_params]

theorem or_flags (b : Nat) :
    ((b % 256 ||| (CAN_USE_HEAP ||| 0x01 ||| KEEP_SEGMENTS)) % 256)
        &&& (CAN_USE_HEAP ||| KEEP_SEGMENTS) = CAN_USE_HEAP ||| KEEP_SEGMENTS := by
  have h : b % 256 < 256 := Nat.mod_lt _ (by decide)
  generalize b % 256 = c at h
  revert c
  set_option maxRecDepth 100000 in decide

/-- The header member `cmdline_size` that lines 192-203 leave is the one of the image. -/
theorem load_guest_boot_cmdline_size (memory image : Mem) :
    load32 (load_guest_boot memory image) (boot + off_cmdline_size)
      = load32 image off_cmdline_size := by
  have h0 := load_guest_boot_copy memory image off_cmdline_size (by decide) (by decide)
  have h1 := load_guest_boot_copy memory image (off_cmdline_size + 1) (by decide) (by decide)
  have h2 := load_guest_boot_copy memory image (off_cmdline_size + 2) (by decide) (by decide)
  have h3 := load_guest_boot_copy memory image (off_cmdline_size + 2 + 1) (by decide) (by decide)
  simp only [← Nat.add_assoc] at h1 h2 h3
  simp only [load32, load16, load8, ← Nat.add_assoc]
  rw [h0, h1, h2, h3]

/-- C2: for every image of `image_size >= 512` bytes (an `unsigned long`), after
`load_guest` the guest memory byte at `0x100000 + i`, for `i < image_size - 512`, is the
image byte at `512 + i`; and this is so for every value `v` of the header member
`setup_sects`: the setup prefix is always taken to be one 512-byte sector. -/
theorem load_guest_kernel_copy (memory image : Mem) (image_size i v : Nat)
    (h512 : 512 ≤ image_size) (h64 : image_size < 2 ^ 64) (hi : i < image_size - 512) :
    (load_guest memory image image_size).2 (0x100000 + i) = image (512 + i) ∧
    (load_guest memory (store8 image off_setup_sects v) image_size).2 (0x100000 + i)
      = image (512 + i) := by
  have hn : (image_size + 2 ^ 64 - 512) % 2 ^ 64 = image_size - 512 := by omega
  have hne : 512 + i ≠ off_setup_sects := by unfold off_setup_sects; omega
  constructor
  · simp only [load_guest, load_guest_kernel, memmove, setupsz, assign, kernel]
    rw [hn]
    simp [hi]
  · simp only [load_guest, load_guest_kernel, memmove, setupsz, assign, kernel]
    rw [hn]
    simp [hi, store8, hne]

/-- C2 at a 4608-byte image of 0xAA bytes whose header declares `setup_sects = 4`: the
byte at `0x100000 + 100` is the image byte at 612. -/
theorem load_guest_kernel_copy_witness :
    (512 ≤ 4608 ∧ 4608 < 2 ^ 64 ∧ 100 < 4608 - 512) ∧
    (load_guest zero_mem (aa_image 4608) 4608).2 (0x100000 + 100) = aa_image 4608 (512 + 100) ∧
    (load_guest zero_mem (store8 (aa_image 4608) off_setup_sects 4) 4608).2 (0x100000 + 100)
      = aa_image 4608 (512 + 100) :=
  ⟨by decide,
    load_guest_kernel_copy zero_mem (aa_image 4608) 4608 100 4 (by decide) (by decide)
      (by decide)⟩

/-- C7: for every image, after `load_guest` the boot-params block at 0x10000 has
`hdr.vid_mode = 0xFFFF`, `hdr.type_of_loader = 0xFF`, `hdr.ramdisk_image = 0`,
`hdr.ram_size = 0`, `hdr.heap_end_ptr = 0xFE00`, `hdr.ext_loader_ver = 0`,
`hdr.cmd_line_ptr = 0x20000`, and `hdr.loadflags` has `CAN_USE_HEAP` and `KEEP_SEGMENTS`
set. -/
theorem load_guest_protocol_fields (memory image : Mem) (image_size : Nat) :
    load16 (load_guest memory image image_size).2 (boot + off_vid_mode) = 0xFFFF ∧
    load8 (load_guest memory image image_size).2 (boot + off_type_of_loader) = 0xFF ∧
    load32 (load_guest memory image image_size).2 (boot + off_ramdisk_image) = 0 ∧
    load16 (load_guest memory image image_size).2 (boot + off_ram_size) = 0 ∧
    load16 (load_guest memory image image_size).2 (boot + off_heap_end_ptr) = 0xFE00 ∧
    load8 (load_guest memory image image_size).2 (boot + off_ext_loader_ver) = 0 ∧
    load32 (load_guest memory image image_size).2 (boot + off_cmd_line_ptr) = 0x20000 ∧
    load8 (load_guest memory image image_size).2 (boot + off_loadflags)
        &&& (CAN_USE_HEAP ||| KEEP_SEGMENTS) = CAN_USE_HEAP ||| KEEP_SEGMENTS ∧
    boot = 0x10000 := by
  have low := load_guest_below_cmdline memory image image_size
  refine ⟨?_, ?_, ?_, ?_, ?_, ?_, ?_, ?_, rfl⟩
  case refine_8 =>
    rw [load8, low _ (by decide), load_guest_boot_loadflags, Nat.mod_mod]
    exact or_flags _
  all_goals simp only [load32, load16, load8]
  all_goals (repeat rw [low _ (by decide)])
  all_goals simp [load_guest_boot, load_guest_fields, store32, store16, store8, boot,
    off_vid_mode, off_type_of_loader, off_ramdisk_image, off_ram_size, off_heap_end_ptr,
    off_ext_loader_ver, off_cmd_line_ptr, off_loadflags]

/-- C8, as stated, fails: with `cmdline_size = 0x800` in the header and guest memory
filled with 0xFF, lines 205-206 change the byte at 0x2000D, outside the 13 bytes of the
string, from 0xFF to 0, and it is 0 after `load_guest`. -/
theorem cmdline_step_zeroes_beyond_string :
    load32 cmdline_image off_cmdline_size = 0x800 ∧
    load_guest_boot ff_mem cmdline_image 0x2000D = 0xFF ∧
    load_guest_cmdline (load_guest_boot ff_mem cmdline_image) 0x2000D = 0 ∧
    (load_guest ff_mem cmdline_image 4608).2 0x2000D = 0 ∧
    ¬ (∀ x, (x < cmdline ∨ cmdline + 13 ≤ x) →
        load_guest_cmdline (load_guest_boot ff_mem cmdline_image) x
          = load_guest_boot ff_mem cmdline_image x) := by
  refine ⟨by decide, by decide, by decide, by decide, ?_⟩
  intro h
  exact absurd (h 0x2000D (by decide)) (by decide)

/-- C8 (amended): for every image and every value of its header member `cmdline_size`,
after `load_guest` the 13 guest bytes at 0x20000..0x2000C are "console=tty0" followed by
a zero byte; lines 205-206 also zero the bytes from 0x2000D up to
`0x20000 + cmdline_size`, and change no byte outside
`[0x20000, 0x20000 + max 13 cmdline_size)`. -/
theorem load_guest_cmdline_written (memory image : Mem) (image_size : Nat) :
    (List.range 13).map (fun i => (load_guest memory image image_size).2 (0x20000 + i))
      = bytes_of "console=tty0" ++ [0] ∧
    (∀ x, 0x20000 + 13 ≤ x → x < 0x20000 + load32 image off_cmdline_size →
      load_guest_cmdline (load_guest_boot memory image) x = 0) ∧
    (∀ x, (x < 0x20000 ∨ 0x20000 + max 13 (load32 image off_cmdline_size) ≤ x) →
      load_guest_cmdline (load_guest_boot memory image) x
        = load_guest_boot memory image x) := by
  have hcs := load_guest_boot_cmdline_size memory image
  refine ⟨?_, ?_, ?_⟩
  · simp [List.range, List.range.loop, load_guest, load_guest_kernel, load_guest_cmdline,
      memmove, cmdline, kernel, c_string, bytes_of]
  · intro x h1 h2
    unfold load_guest_cmdline
    rw [hcs]
    unfold cmdline
    rw [memmove_ne _ _ _ _ _ _ (by omega), memset_in _ _ _ _ _ (by omega) h2]
  · intro x hx
    unfold load_guest_cmdline
    rw [hcs]
    unfold cmdline
    rw [memmove_ne _ _ _ _ _ _ (by omega), memset_ne _ _ _ _ _ (by omega)]

/-- C9, as stated, fails.  With the 16-byte image of 0xAA (followed by zero bytes in its
buffer) the byte of the boot-params block at offset 0x1fa, past the first 16, is 0xFF and
not zero; with a 512-byte image of 0xAA the byte at offset 0x1fa, among the first 512,
is 0xFF and not the image byte, and the byte at offset 0x210, past them, is 0xFF. -/
theorem short_image_not_zero_padded :
    (load_guest zero_mem (aa_image 16) 16).2 (boot + 0x1fa) = 0xFF ∧
    ¬ (∀ i, 16 ≤ i → i < sizeof_boot_params →
        (load_guest zero_mem (aa_image 16) 16).2 (boot + i) = 0) ∧
    ¬ (∀ i, i < 512 →
        (load_guest zero_mem (aa_image 512) 512).2 (boot + i) = aa_image 512 i) ∧
    ¬ (∀ i, 512 ≤ i → i < sizeof_boot_params →
        (load_guest zero_mem (aa_image 512) 512).2 (boot + i) = 0) := by
  refine ⟨by decide, ?_, ?_, ?_⟩
  · intro h
    exact absurd (h 0x1fa (by decide) (by decide)) (by decide)
  · intro h
    exact absurd (h 0x1fa (by decide)) (by decide)
  · intro h
    exact absurd (h 0x210 (by decide) (by decide)) (by decide)

/-- C9 (amended): for every image of at least 512 bytes, shorter than the boot header or
not, after `load_guest` the first `image_size` bytes of the boot-params block at 0x10000
(as far as the block reaches) are the image bytes at the same offsets, except the bytes of
the eight assigned members.  The bytes of the block from `image_size` on are not
zero-filled, and nothing is said of them.  (Below 512 bytes the length
`image_size - setupsz` of line 207 wraps; such calls are left out.) -/
theorem boot_block_holds_image_bytes (memory image : Mem) (image_size i : Nat)
    (_hsize : 512 ≤ image_size) (_hin : i < image_size) (hi : i < sizeof_boot_params)
    (hf : overwritten i = false) :
    (load_guest memory image image_size).2 (0x10000 + i) = image i := by
  have hlt : 0x10000 + i < cmdline := by
    unfold sizeof_boot_params at hi; unfold cmdline; omega
  rw [load_guest_below_cmdline memory image image_size _ hlt]
  exact load_guest_boot_copy memory image i hi hf

/-- C9 (amended) at a 600-byte image of 0xAA: the block byte at offset 16 is 0xAA. -/
theorem boot_block_holds_image_bytes_witness :
    (512 ≤ 600 ∧ 16 < 600 ∧ 16 < sizeof_boot_params ∧ overwritten 16 = false) ∧
    (load_guest zero_mem (aa_image 600) 600).2 (0x10000 + 16) = aa_image 600 16 :=
  ⟨by decide,
    boot_block_holds_image_bytes zero_mem (aa_image 600) 600 16
      (by decide) (by decide) (by decide) (by decide)⟩

/-! ## The run loop -/

/-- Every turn of the loop issues a resume call. -/
theorem run_vm_loop_resumes (n : Nat) (script : List Resume) :
    ∀ st : RunState, st.resumes + 1 ≤ (run_vm_loop n script st).2.resumes := by
  induction script with
  | nil => intro st; simp [run_vm_loop]
  | cons r rest ih =>
    intro st
    rw [run_vm_loop]
    simp only
    split_ifs
    · simp
    · refine Nat.le_trans ?_ (ih _); simp
    · refine Nat.le_trans ?_ (ih _); simp
    · refine Nat.le_trans ?_ (ih _); simp
    · simp
    · simp

/-- A port I/O exit that is neither of the two served ones leaves the state as the
hypervisor returned it, and the loop goes on. -/
theorem run_vm_loop_skip (n : Nat) (r : Resume) (rest : List Resume) (st : RunState)
    (hret : 0 ≤ (r st.run).1) (hio : exit_reason (r st.run).2 = KVM_EXIT_IO)
    (hout : ¬ (io_port (r st.run).2 = 0x3f8 ∧ io_direction (r st.run).2 = KVM_EXIT_IO_OUT))
    (hin : ¬ (io_port (r st.run).2 = 0x3fd ∧ io_direction (r st.run).2 = KVM_EXIT_IO_IN)) :
    run_vm_loop n (r :: rest) st
      = run_vm_loop n rest { run := (r st.run).2, out := st.out, resumes := st.resumes + 1 } := by
  rw [run_vm_loop]
  simp only
  rw [if_neg (not_lt.mpr hret), if_pos hio, if_neg hout, if_neg hin]

/-- Served port I/O exits followed by a shutdown exit: the loop returns 0 at the
shutdown exit, whatever returns would follow. -/
theorem run_vm_loop_shutdown (n : Nat) (pre : List Resume) (sd : Resume) (more : List Resume)
    (hpre : ∀ r ∈ pre, ∀ run, 0 ≤ (r run).1 ∧ handled_io (r run).2)
    (hsd : ∀ run, 0 ≤ (sd run).1 ∧ exit_reason (sd run).2 = KVM_EXIT_SHUTDOWN) :
    ∀ st : RunState,
      (run_vm_loop n (pre ++ sd :: more) st).1 = some 0 ∧
      (run_vm_loop n (pre ++ sd :: more) st).2.resumes = st.resumes + (pre.length + 1) ∧
      ∃ console, (run_vm_loop n (pre ++ sd :: more) st).2.out
        = st.out ++ console ++ bytes_of "shutdown\n" := by
  induction pre with
  | nil =>
    intro st
    have h := hsd st.run
    have hne : exit_reason (sd st.run).2 ≠ KVM_EXIT_IO := by rw [h.2]; decide
    simp only [List.nil_append, List.length_nil]
    rw [run_vm_loop]
    simp only
    rw [if_neg (not_lt.mpr h.1), if_neg hne, if_pos h.2]
    exact ⟨rfl, rfl, [], by simp⟩
  | cons r pre ih =>
    intro st
    have h := hpre r (List.mem_cons_self _ _) st.run
    have ih2 := ih (fun r2 hr2 => hpre r2 (List.mem_cons_of_mem _ hr2))
    simp only [List.cons_append, List.length_cons]
    rw [run_vm_loop]
    simp only
    rw [if_neg (not_lt.mpr h.1), if_pos h.2.1]
    rcases h.2.2 with hout | hin
    · rw [if_pos hout]
      obtain ⟨h1, h2, c, h3⟩ := ih2
        { run := (r st.run).2,
          out := st.out ++ printf_prec_s
            (int_of_u32 (io_size (r st.run).2 * io_count (r st.run).2)) (r st.run).2
            (io_data_offset (r st.run).2) n,
          resumes := st.resumes + 1 }
      refine ⟨h1, ?_, printf_prec_s
        (int_of_u32 (io_size (r st.run).2 * io_count (r st.run).2)) (r st.run).2
        (io_data_offset (r st.run).2) n ++ c, ?_⟩
      · rw [h2]; simp only; omega
      · rw [h3]; simp only [List.append_assoc]
    · have hnot : ¬ (io_port (r st.run).2 = 0x3f8 ∧
          io_direction (r st.run).2 = KVM_EXIT_IO_OUT) := by
        rw [hin.1]; simp
      rw [if_neg hnot, if_pos hin]
      obtain ⟨h1, h2, c, h3⟩ := ih2
        { run := store8 (r st.run).2 (io_data_offset (r st.run).2) 0x20, out := st.out,
          resumes := st.resumes + 1 }
      refine ⟨h1, ?_, c, ?_⟩
      · rw [h2]; simp only; omega
      · rw [h3]

/-- C3, the failing input: one exit at port 0x3f8, direction OUT, size 1, count 3, whose
three payload bytes at `data_offset` are 'a', 0, 'b'.  `printf("%.*s", 3, ...)` stops at
the zero byte: standard output receives the single byte 'a' (then the shutdown line),
not the three payload bytes. -/
theorem run_vm_output_stops_at_zero_byte :
    (List.range 3).map (fun i => (nul_exit start_state.run).2 (4096 + i)) = [97, 0, 98] ∧
    io_size (nul_exit start_state.run).2 * io_count (nul_exit start_state.run).2 = 3 ∧
    (run_vm nul_script 8192 zero_mem).2.out = [97] ++ bytes_of "shutdown\n" ∧
    (run_vm nul_script 8192 zero_mem).2.out ≠ [97, 0, 98] ++ bytes_of "shutdown\n" := by
  decide

/-- C4, as stated, fails: after a port I/O exit at port 0x80 (direction OUT, neither of
the two served pairs) `run_vm` does not return -1; it issues a second resume call, and
at the shutdown exit that follows returns 0 having printed no reason code. -/
theorem other_port_io_not_fatal :
    exit_reason (port80_exit start_state.run).2 = KVM_EXIT_IO ∧
    io_port (port80_exit start_state.run).2 = 0x80 ∧
    (run_vm port80_script 8192 zero_mem).1 ≠ some (-1) ∧
    (run_vm port80_script 8192 zero_mem).1 = some 0 ∧
    (run_vm port80_script 8192 zero_mem).2.resumes = 2 ∧
    (run_vm port80_script 8192 zero_mem).2.out = bytes_of "shutdown\n" := by
  decide

/-- C4 (amended): for every port I/O exit whose (port, direction) is neither
(0x3f8, OUT) nor (0x3fd, IN), `run_vm` ignores the exit: it writes nothing to standard
output, leaves the run structure as the hypervisor returned it, and goes round the loop
again, issuing another resume call.  The exit is not fatal and no reason code is
printed for it. -/
theorem other_port_io_skipped (n : Nat) (r : Resume) (rest : List Resume) (st : RunState)
    (hret : 0 ≤ (r st.run).1) (hio : exit_reason (r st.run).2 = KVM_EXIT_IO)
    (hout : ¬ (io_port (r st.run).2 = 0x3f8 ∧ io_direction (r st.run).2 = KVM_EXIT_IO_OUT))
    (hin : ¬ (io_port (r st.run).2 = 0x3fd ∧ io_direction (r st.run).2 = KVM_EXIT_IO_IN)) :
    run_vm_loop n (r :: rest) st
      = run_vm_loop n rest { run := (r st.run).2, out := st.out, resumes := st.resumes + 1 } ∧
    st.resumes + 2 ≤ (run_vm_loop n (r :: rest) st).2.resumes := by
  have h := run_vm_loop_skip n r rest st hret hio hout hin
  refine ⟨h, ?_⟩
  rw [h]
  exact run_vm_loop_resumes n rest
    { run := (r st.run).2, out := st.out, resumes := st.resumes + 1 }

/-- C4 (amended) at the exit at port 0x80 followed by a shutdown exit. -/
theorem other_port_io_skipped_witness :
    (0 ≤ (port80_exit start_state.run).1 ∧
      exit_reason (port80_exit start_state.run).2 = KVM_EXIT_IO ∧
      ¬ (io_port (port80_exit start_state.run).2 = 0x3f8 ∧
          io_direction (port80_exit start_state.run).2 = KVM_EXIT_IO_OUT) ∧
      ¬ (io_port (port80_exit start_state.run).2 = 0x3fd ∧
          io_direction (port80_exit start_state.run).2 = KVM_EXIT_IO_IN)) ∧
    (run_vm_loop 8192 (port80_exit :: [exit_with KVM_EXIT_SHUTDOWN]) start_state
      = run_vm_loop 8192 [exit_with KVM_EXIT_SHUTDOWN]
          { run := (port80_exit start_state.run).2, out := start_state.out,
            resumes := start_state.resumes + 1 } ∧
    start_state.resumes + 2
      ≤ (run_vm_loop 8192 (port80_exit :: [exit_with KVM_EXIT_SHUTDOWN]) start_state).2.resumes) :=
  ⟨by decide,
    other_port_io_skipped 8192 port80_exit [exit_with KVM_EXIT_SHUTDOWN] start_state
      (by decide) (by decide) (by decide) (by decide)⟩

/-- C5, as stated, fails on its own example: for the sequence "hi" at the data port, a
status read, shutdown, standard output is not "hi" but "hi" followed by the line
"shutdown" that `run_vm` prints itself. -/
theorem hi_script_stdout_has_shutdown_line :
    (run_vm hi_script 8192 zero_mem).2.out ≠ bytes_of "hi" ∧
    (run_vm hi_script 8192 zero_mem).2.out = bytes_of "hi" ++ bytes_of "shutdown\n" := by
  decide

/-- C5 (amended): for every finite sequence of served port I/O exits (data port OUT,
status port IN) followed by a shutdown exit, every resume call succeeding, `run_vm`
stops at the shutdown exit, returns 0, has issued exactly as many resume calls as there
are exits in the sequence, and standard output ends with the line "shutdown" it prints;
for the sequence "hi" at the data port, status read, shutdown, standard output is "hi"
followed by "shutdown" and a newline, the byte at `data_offset` is 0x20, and the value
returned is 0 after 3 resume calls. -/
theorem shutdown_after_handled_exits :
    (∀ (n : Nat) (pre : List Resume) (sd : Resume) (more : List Resume) (mapping : Mem),
      (∀ r ∈ pre, ∀ run, 0 ≤ (r run).1 ∧ handled_io (r run).2) →
      (∀ run, 0 ≤ (sd run).1 ∧ exit_reason (sd run).2 = KVM_EXIT_SHUTDOWN) →
      (run_vm (pre ++ sd :: more) n mapping).1 = some 0 ∧
      (run_vm (pre ++ sd :: more) n mapping).2.resumes = pre.length + 1 ∧
      ∃ console, (run_vm (pre ++ sd :: more) n mapping).2.out
        = console ++ bytes_of "shutdown\n") ∧
    ((run_vm hi_script 8192 zero_mem).1 = some 0 ∧
      (run_vm hi_script 8192 zero_mem).2.resumes = 3 ∧
      (run_vm hi_script 8192 zero_mem).2.out = bytes_of "hi" ++ bytes_of "shutdown\n" ∧
      (run_vm hi_script 8192 zero_mem).2.run
        (io_data_offset (run_vm hi_script 8192 zero_mem).2.run) = 0x20 ∧
      io_data_offset (run_vm hi_script 8192 zero_mem).2.run = 4096) := by
  refine ⟨?_, by decide⟩
  intro n pre sd more mapping hpre hsd
  obtain ⟨h1, h2, c, h3⟩ := run_vm_loop_shutdown n pre sd more hpre hsd
    { run := store16 mapping off_flags 65535, out := [], resumes := 0 }
  refine ⟨h1, ?_, c, ?_⟩
  · rw [run_vm, h2]; simp
  · rw [run_vm, h3]; simp

/-- The reason an `exit_with` return leaves in the run structure (a 32-bit value). -/
theorem exit_reason_exit_with (reason : Nat) (run : Mem) :
    (exit_with reason run).1 = 0 ∧
    exit_reason (exit_with reason run).2 = reason % 4294967296 := by
  refine ⟨rfl, ?_⟩
  simp [exit_with, exit_reason, load32, load16, load8, store32, store16, store8,
    off_exit_reason]
  omega

theorem hi_exit_handled (run : Mem) : 0 ≤ (hi_exit run).1 ∧ handled_io (hi_exit run).2 := by
  refine ⟨by simp [hi_exit, exit_io], ?_, Or.inl ⟨?_, ?_⟩⟩ <;>
    simp [hi_exit, exit_io, exit_reason, io_port, io_direction, load32, load16, load8,
      store32, store16, store8, off_exit_reason, off_io_direction, off_io_size, off_io_port,
      off_io_count, off_io_data_offset, KVM_EXIT_IO, KVM_EXIT_IO_OUT]

theorem status_exit_handled (run : Mem) :
    0 ≤ (status_exit run).1 ∧ handled_io (status_exit run).2 := by
  refine ⟨by simp [status_exit, exit_io], ?_, Or.inr ⟨?_, ?_⟩⟩ <;>
    simp [status_exit, exit_io, exit_reason, io_port, io_direction, load32, load16, load8,
      store32, store16, store8, off_exit_reason, off_io_direction, off_io_size, off_io_port,
      off_io_count, off_io_data_offset, KVM_EXIT_IO, KVM_EXIT_IO_IN]

/-- C5 (amended) at the sequence "hi" at the data port, status read, shutdown, on any
mapping: the two port I/O exits are served ones, the third is a shutdown exit, and
`run_vm` returns 0 after 3 resume calls. -/
theorem shutdown_after_handled_exits_witness :
    (∀ r ∈ [hi_exit, status_exit], ∀ run, 0 ≤ (r run).1 ∧ handled_io (r run).2) ∧
    (∀ run, 0 ≤ (exit_with KVM_EXIT_SHUTDOWN run).1 ∧
      exit_reason (exit_with KVM_EXIT_SHUTDOWN run).2 = KVM_EXIT_SHUTDOWN) ∧
    ((run_vm ([hi_exit, status_exit] ++ exit_with KVM_EXIT_SHUTDOWN :: []) 8192 zero_mem).1
        = some 0 ∧
      (run_vm ([hi_exit, status_exit] ++ exit_with KVM_EXIT_SHUTDOWN :: []) 8192
        zero_mem).2.resumes = [hi_exit, status_exit].length + 1 ∧
      ∃ console,
        (run_vm ([hi_exit, status_exit] ++ exit_with KVM_EXIT_SHUTDOWN :: []) 8192
          zero_mem).2.out = console ++ bytes_of "shutdown\n") := by
  have hpre : ∀ r ∈ [hi_exit, status_exit], ∀ run, 0 ≤ (r run).1 ∧ handled_io (r run).2 := by
    intro r hr run
    simp only [List.mem_cons, List.mem_singleton, List.not_mem_nil, or_false] at hr
    rcases hr with h | h
    · rw [h]; exact hi_exit_handled run
    · rw [h]; exact status_exit_handled run
  have hsd : ∀ run, 0 ≤ (exit_with KVM_EXIT_SHUTDOWN run).1 ∧
      exit_reason (exit_with KVM_EXIT_SHUTDOWN run).2 = KVM_EXIT_SHUTDOWN := by
    intro run
    have h := exit_reason_exit_with KVM_EXIT_SHUTDOWN run
    exact ⟨by rw [h.1], by rw [h.2]; decide⟩
  exact ⟨hpre, hsd,
    shutdown_after_handled_exits.1 8192 [hi_exit, status_exit] (exit_with KVM_EXIT_SHUTDOWN)
      [] zero_mem hpre hsd⟩

/-- C6: for every exit whose reason code is neither `KVM_EXIT_IO` nor `KVM_EXIT_SHUTDOWN`,
`run_vm` returns -1 at once: no further resume call is issued whatever returns would
follow, the run structure is left as the hypervisor returned it, and the only bytes
added to standard output are the diagnostic `"reason: %d\n"` of that exit's reason code
(for a code below `2 ^ 31`, its decimal digits). -/
theorem unknown_exit_fatal (n : Nat) (r : Resume) (rest : List Resume) (st : RunState)
    (hret : 0 ≤ (r st.run).1) (hio : exit_reason (r st.run).2 ≠ KVM_EXIT_IO)
    (hsd : exit_reason (r st.run).2 ≠ KVM_EXIT_SHUTDOWN) :
    run_vm_loop n (r :: rest) st
      = (some (-1), { run := (r st.run).2,
                      out := st.out ++ printf_reason (exit_reason (r st.run).2),
                      resumes := st.resumes + 1 }) ∧
    (exit_reason (r st.run).2 < 2 ^ 31 →
      printf_reason (exit_reason (r st.run).2)
        = bytes_of "reason: " ++ bytes_of (toString (exit_reason (r st.run).2))
            ++ bytes_of "\n") := by
  constructor
  · rw [run_vm_loop]
    simp only
    rw [if_neg (not_lt.mpr hret), if_neg hio, if_neg hsd]
  · intro hlt
    have h32 : exit_reason (r st.run).2 % 2 ^ 32 = exit_reason (r st.run).2 :=
      Nat.mod_eq_of_lt (by omega)
    unfold printf_reason int_of_u32
    rw [h32, if_pos hlt]
    rfl

/-- C6 at an MMIO exit followed by a return that is never consumed: `run_vm` returns -1
after one resume call and standard output holds "reason: 6" and a newline. -/
theorem unknown_exit_fatal_witness :
    (0 ≤ (exit_with KVM_EXIT_MMIO start_state.run).1 ∧
      exit_reason (exit_with KVM_EXIT_MMIO start_state.run).2 ≠ KVM_EXIT_IO ∧
      exit_reason (exit_with KVM_EXIT_MMIO start_state.run).2 ≠ KVM_EXIT_SHUTDOWN) ∧
    (run_vm_loop 8192 (exit_with KVM_EXIT_MMIO :: [hi_exit]) start_state
      = (some (-1), { run := (exit_with KVM_EXIT_MMIO start_state.run).2,
                      out := start_state.out
                        ++ printf_reason (exit_reason (exit_with KVM_EXIT_MMIO start_state.run).2),
                      resumes := start_state.resumes + 1 }) ∧
    (exit_reason (exit_with KVM_EXIT_MMIO start_state.run).2 < 2 ^ 31 →
      printf_reason (exit_reason (exit_with KVM_EXIT_MMIO start_state.run).2)
        = bytes_of "reason: "
            ++ bytes_of (toString (exit_reason (exit_with KVM_EXIT_MMIO start_state.run).2))
            ++ bytes_of "\n")) ∧
    printf_reason (exit_reason (exit_with KVM_EXIT_MMIO start_state.run).2)
      = bytes_of "reason: 6\n" :=
  ⟨by decide,
    unknown_exit_fatal 8192 (exit_with KVM_EXIT_MMIO) [hi_exit] start_state
      (by decide) (by decide) (by decide),
    by decide⟩

/-! ## CPUID: the rewrite of the queried set -/

theorem rewrite_entry_of_ne (e : kvm_cpuid_entry2) (h : e.function ≠ KVM_CPUID_SIGNATURE) :
    rewrite_entry e = e := by
  unfold rewrite_entry
  rw [if_neg h]

theorem rewrite_entry_idem (e : kvm_cpuid_entry2) :
    rewrite_entry (rewrite_entry e) = rewrite_entry e := by
  unfold rewrite_entry
  split_ifs <;> simp_all

/-- The first `n` turns of the loop: `nent` and `padding` are left alone, and the entry
at an index below `n` is rewritten by the body. -/
theorem foldl_rewrite_at (n : Nat) (c : kvm_cpuid) :
    ((List.range n).foldl rewrite_at c).nent = c.nent ∧
    ((List.range n).foldl rewrite_at c).padding = c.padding ∧
    ∀ i, ((List.range n).foldl rewrite_at c).entries[i]?
      = if i < n then (c.entries[i]?).map rewrite_entry else c.entries[i]? := by
  induction n with
  | zero => simp
  | succ n ih =>
    obtain ⟨h1, h2, h3⟩ := ih
    rw [List.range_succ, List.foldl_append]
    simp only [List.foldl_cons, List.foldl_nil, rewrite_at]
    refine ⟨h1, h2, ?_⟩
    intro i
    rw [List.getElem?_modify, h3]
    by_cases hin : n = i
    · subst hin
      simp
    · by_cases hlt : i < n
      · have hlt2 : i < n + 1 := by omega
        simp [hin, hlt, hlt2]
      · have hlt2 : ¬ i < n + 1 := by omega
        simp [hin, hlt, hlt2]

theorem foldl_rewrite_at_length (n : Nat) (c : kvm_cpuid) :
    ((List.range n).foldl rewrite_at c).entries.length = c.entries.length := by
  induction n with
  | zero => simp
  | succ n ih =>
    rw [List.range_succ, List.foldl_append]
    simp only [List.foldl_cons, List.foldl_nil, rewrite_at, List.length_modify]
    exact ih

theorem rewrite_cpuid_length (c : kvm_cpuid) :
    (rewrite_cpuid c).entries.length = c.entries.length :=
  foldl_rewrite_at_length c.nent c

theorem rewrite_cpuid_entries (c : kvm_cpuid) (i : Nat) :
    (rewrite_cpuid c).entries[i]?
      = if i < c.nent then (c.entries[i]?).map rewrite_entry else c.entries[i]? :=
  (foldl_rewrite_at c.nent c).2.2 i

theorem rewrite_cpuid_nent (c : kvm_cpuid) : (rewrite_cpuid c).nent = c.nent :=
  (foldl_rewrite_at c.nent c).1

theorem rewrite_cpuid_padding (c : kvm_cpuid) : (rewrite_cpuid c).padding = c.padding :=
  (foldl_rewrite_at c.nent c).2.1

/-- The loop applied to its own output changes nothing. -/
theorem rewrite_cpuid_idem (c : kvm_cpuid) :
    rewrite_cpuid (rewrite_cpuid c) = rewrite_cpuid c := by
  have hn := rewrite_cpuid_nent (rewrite_cpuid c)
  have hp := rewrite_cpuid_padding (rewrite_cpuid c)
  have he : (rewrite_cpuid (rewrite_cpuid c)).entries = (rewrite_cpuid c).entries := by
    apply List.ext_getElem?
    intro i
    rw [rewrite_cpuid_entries (rewrite_cpuid c) i, rewrite_cpuid_nent, rewrite_cpuid_entries c i]
    by_cases hlt : i < c.nent
    · simp only [hlt, if_true]
      cases c.entries[i]? with
      | none => rfl
      | some e => simp [rewrite_entry_idem]
    · simp only [hlt, if_false]
  cases h1 : rewrite_cpuid (rewrite_cpuid c) with
  | mk a b d =>
    cases h2 : rewrite_cpuid c with
    | mk a2 b2 d2 =>
      rw [h1, h2] at hn hp he
      simp only at hn hp he
      rw [hn, hp, he]

/-- C10: whatever entry set the supported-CPUID query returns, the set `KVM_SET_CPUID2`
passes to the install call has the same `nent`, the same number of entries with the
same functions and indices in the same order, and every entry whose function is not
`KVM_CPUID_SIGNATURE` is the queried entry, identical in all fields; applying the
rewrite again to the installed set changes no such entry (indeed changes nothing). -/
theorem cpuid_rewrite_frame (k : CpuidKernel) (uninit : kvm_cpuid) :
    ∃ installed : kvm_cpuid,
      (KVM_SET_CPUID2 k uninit).calls
        = [CpuidCall.get_supported_cpuid { uninit with nent := uninit.entries.length },
           CpuidCall.set_cpuid2 installed] ∧
      installed.nent
        = (k.get_supported_cpuid { uninit with nent := uninit.entries.length }).2.nent ∧
      installed.entries.length
        = (k.get_supported_cpuid { uninit with nent := uninit.entries.length }).2.entries.length ∧
      installed.entries.map (fun e => (e.function, e.index))
        = (k.get_supported_cpuid { uninit with nent := uninit.entries.length }).2.entries.map
            (fun e => (e.function, e.index)) ∧
      (∀ (i : Nat) (e : kvm_cpuid_entry2),
        (k.get_supported_cpuid { uninit with nent := uninit.entries.length }).2.entries[i]?
            = some e →
        e.function ≠ KVM_CPUID_SIGNATURE → installed.entries[i]? = some e) ∧
      (∀ (i : Nat) (e : kvm_cpuid_entry2), installed.entries[i]? = some e →
        e.function ≠ KVM_CPUID_SIGNATURE → (rewrite_cpuid installed).entries[i]? = some e) ∧
      rewrite_cpuid installed = installed := by
  refine ⟨rewrite_cpuid (k.get_supported_cpuid { uninit with nent := uninit.entries.length }).2,
    rfl, rewrite_cpuid_nent _, rewrite_cpuid_length _, ?_, ?_, ?_, rewrite_cpuid_idem _⟩
  · apply List.ext_getElem?
    intro i
    rw [List.getElem?_map, List.getElem?_map, rewrite_cpuid_entries]
    split_ifs
    · cases (k.get_supported_cpuid
          { uninit with nent := uninit.entries.length }).2.entries[i]? with
      | none => rfl
      | some e =>
        simp only [Option.map_some']
        unfold rewrite_entry
        split_ifs <;> rfl
    · rfl
  · intro i e he hne
    rw [rewrite_cpuid_entries, he]
    split_ifs
    · simp [rewrite_entry_of_ne e hne]
    · rfl
  · intro i e he _
    rw [rewrite_cpuid_idem]
    exact he

/-! ## General registers -/

/-- C11: the register state `KVM_SET_REGS` passes to the set-registers call has
`rip = 0x100000`, the kernel offset of `load_guest`, `rflags = 2` (bit 1 set and no
other bit), and `rsi = 0x10000`, the boot-params offset of `load_guest`; that call is the
only control call issued and the function returns its result. -/
theorem set_regs_entry_state (set_regs : kvm_regs → Int) (uninit : kvm_regs) :
    ∃ regs : kvm_regs,
      (KVM_SET_REGS set_regs uninit).calls = [RegsCall.set_regs regs] ∧
      (KVM_SET_REGS set_regs uninit).ret = set_regs regs ∧
      regs.rip = 0x100000 ∧ regs.rip = kernel ∧
      regs.rflags = 2 ∧ (∀ i, regs.rflags.testBit i = decide (i = 1)) ∧
      regs.rsi = 0x10000 ∧ regs.rsi = boot := by
  refine ⟨_, rfl, rfl, rfl, rfl, rfl, ?_, rfl, rfl⟩
  intro i
  show Nat.testBit 2 i = decide (i = 1)
  match i with
  | 0 => rfl
  | 1 => rfl
  | k + 2 =>
    have h : (2 : Nat) < 2 ^ (k + 2) := by
      have := Nat.one_lt_two_pow (n := k + 1) (by omega)
      rw [Nat.pow_succ]; omega
    rw [Nat.testBit_lt_two_pow h]
    simp

/-! ## The run loop: status reads and failed resumes -/

/-- C12: for every port I/O exit at the line-status port 0x3fd with direction IN,
`run_vm` stores the byte 0x20 at `data_offset` in the run structure, changes no other
byte of it, writes nothing to standard output, and goes round the loop again, issuing
another resume call. -/
theorem status_port_read_served (n : Nat) (r : Resume) (rest : List Resume) (st : RunState)
    (hret : 0 ≤ (r st.run).1) (hio : exit_reason (r st.run).2 = KVM_EXIT_IO)
    (hport : io_port (r st.run).2 = 0x3fd)
    (hdir : io_direction (r st.run).2 = KVM_EXIT_IO_IN) :
    run_vm_loop n (r :: rest) st
      = run_vm_loop n rest
          { run := store8 (r st.run).2 (io_data_offset (r st.run).2) 0x20,
            out := st.out, resumes := st.resumes + 1 } ∧
    store8 (r st.run).2 (io_data_offset (r st.run).2) 0x20 (io_data_offset (r st.run).2)
      = 0x20 ∧
    (∀ x, x ≠ io_data_offset (r st.run).2 →
      store8 (r st.run).2 (io_data_offset (r st.run).2) 0x20 x = (r st.run).2 x) ∧
    st.resumes + 2 ≤ (run_vm_loop n (r :: rest) st).2.resumes := by
  have hnot : ¬ (io_port (r st.run).2 = 0x3f8 ∧
      io_direction (r st.run).2 = KVM_EXIT_IO_OUT) := by
    rw [hport]; simp
  have hstep : run_vm_loop n (r :: rest) st
      = run_vm_loop n rest
          { run := store8 (r st.run).2 (io_data_offset (r st.run).2) 0x20,
            out := st.out, resumes := st.resumes + 1 } := by
    rw [run_vm_loop]
    simp only
    rw [if_neg (not_lt.mpr hret), if_pos hio, if_neg hnot, if_pos ⟨hport, hdir⟩]
  refine ⟨hstep, by simp [store8], fun x hx => store8_ne _ _ _ _ hx, ?_⟩
  rw [hstep]
  exact run_vm_loop_resumes n rest
    { run := store8 (r st.run).2 (io_data_offset (r st.run).2) 0x20,
      out := st.out, resumes := st.resumes + 1 }

/-- C12 at a status-port read followed by a shutdown exit. -/
theorem status_port_read_served_witness :
    (0 ≤ (status_exit start_state.run).1 ∧
      exit_reason (status_exit start_state.run).2 = KVM_EXIT_IO ∧
      io_port (status_exit start_state.run).2 = 0x3fd ∧
      io_direction (status_exit start_state.run).2 = KVM_EXIT_IO_IN) ∧
    (run_vm_loop 8192 (status_exit :: [exit_with KVM_EXIT_SHUTDOWN]) start_state
      = run_vm_loop 8192 [exit_with KVM_EXIT_SHUTDOWN]
          { run := store8 (status_exit start_state.run).2
              (io_data_offset (status_exit start_state.run).2) 0x20,
            out := start_state.out, resumes := start_state.resumes + 1 } ∧
    store8 (status_exit start_state.run).2 (io_data_offset (status_exit start_state.run).2)
      0x20 (io_data_offset (status_exit start_state.run).2) = 0x20 ∧
    (∀ x, x ≠ io_data_offset (status_exit start_state.run).2 →
      store8 (status_exit start_state.run).2
        (io_data_offset (status_exit start_state.run).2) 0x20 x
        = (status_exit start_state.run).2 x) ∧
    start_state.resumes + 2
      ≤ (run_vm_loop 8192 (status_exit :: [exit_with KVM_EXIT_SHUTDOWN])
          start_state).2.resumes) :=
  ⟨by decide,
    status_port_read_served 8192 status_exit [exit_with KVM_EXIT_SHUTDOWN] start_state
      (by decide) (by decide) (by decide) (by decide)⟩

/-- C16: if a resume call returns a negative result, `run_vm` returns -1 in that turn of
the loop, whatever exit reason the run structure holds: nothing is added to standard
output, the program writes no byte of the run structure, and no further resume call is
issued whatever returns would follow. -/
theorem failed_resume_fatal (n : Nat) (r : Resume) (rest : List Resume) (st : RunState)
    (hret : (r st.run).1 < 0) :
    run_vm_loop n (r :: rest) st
      = (some (-1), { run := (r st.run).2, out := st.out, resumes := st.resumes + 1 }) := by
  rw [run_vm_loop]
  simp only
  rw [if_pos hret]

/-- C16 at a failing resume followed by a return that is never consumed. -/
theorem failed_resume_fatal_witness :
    (failed_resume start_state.run).1 < 0 ∧
    run_vm_loop 8192 (failed_resume :: [hi_exit]) start_state
      = (some (-1), { run := (failed_resume start_state.run).2, out := start_state.out,
                      resumes := start_state.resumes + 1 }) :=
  ⟨by decide, failed_resume_fatal 8192 failed_resume [hi_exit] start_state (by decide)⟩

/-! ## Special registers: failure paths and what is left alone -/

theorem init_sregs_idem (s : kvm_sregs) : init_sregs (init_sregs s) = init_sregs s := by
  simp [init_sregs, set_flat, Nat.or_assoc]

theorem testBit_or_one (x i : Nat) (hi : i ≠ 0) : (x ||| 1).testBit i = x.testBit i := by
  rw [Nat.testBit_or]
  have h1 : (1 : Nat).testBit i = false := by
    cases i with
    | zero => exact absurd rfl hi
    | succ j =>
      apply Nat.testBit_lt_two_pow
      have := Nat.one_lt_two_pow (n := j + 1) (by omega)
      omega
  rw [h1, Bool.or_false]

/-- C13, as stated, fails: when the state read has `db = 0` on ds and es (a real-mode
state), the state written back still has `db = 0` on ds and on es. -/
theorem data_segment_db_untouched :
    (reset_kernel.get_sregs zero_sregs).1 ≠ -1 ∧
    (KVM_GET_and_SET_SREGS reset_kernel zero_sregs 0).calls
      = [SregsCall.get_sregs zero_sregs,
         SregsCall.set_sregs (init_sregs (reset_kernel.get_sregs zero_sregs).2)] ∧
    (init_sregs (reset_kernel.get_sregs zero_sregs).2).ds.db = 0 ∧
    (init_sregs (reset_kernel.get_sregs zero_sregs).2).es.db = 0 ∧
    ¬ ((init_sregs (reset_kernel.get_sregs zero_sregs).2).ds.db = 1) := by
  decide

/-- C13 (amended): when `KVM_GET_and_SET_SREGS` succeeds in reading the state
(`arm64 == 0`), the state written back has `db = 1` on the code and stack segment
descriptors cs and ss; on the data and extra segment descriptors ds and es, `db` is the
value that was read. -/
theorem sregs_db_bits (k : SregsKernel) (uninit : kvm_sregs)
    (hread : (k.get_sregs uninit).1 ≠ -1) :
    ∃ written : kvm_sregs,
      (KVM_GET_and_SET_SREGS k uninit 0).calls
        = [SregsCall.get_sregs uninit, SregsCall.set_sregs written] ∧
      written.cs.db = 1 ∧ written.ss.db = 1 ∧
      written.ds.db = (k.get_sregs uninit).2.ds.db ∧
      written.es.db = (k.get_sregs uninit).2.es.db := by
  refine ⟨init_sregs (k.get_sregs uninit).2, ?_, rfl, rfl, rfl, rfl⟩
  simp [KVM_GET_and_SET_SREGS, hread]

/-- C13 (amended) at a kernel that returns a real-mode reset state. -/
theorem sregs_db_bits_witness :
    (reset_kernel.get_sregs zero_sregs).1 ≠ -1 ∧
    ∃ written : kvm_sregs,
      (KVM_GET_and_SET_SREGS reset_kernel zero_sregs 0).calls
        = [SregsCall.get_sregs zero_sregs, SregsCall.set_sregs written] ∧
      written.cs.db = 1 ∧ written.ss.db = 1 ∧
      written.ds.db = (reset_kernel.get_sregs zero_sregs).2.ds.db ∧
      written.es.db = (reset_kernel.get_sregs zero_sregs).2.es.db :=
  ⟨by decide, sregs_db_bits reset_kernel zero_sregs (by decide)⟩

/-- C15: `KVM_GET_and_SET_SREGS` returns -1 without any control call for every
`arm64 != 0`; for `arm64 == 0` it returns -1 after the read call alone when the read call
returns -1, and otherwise issues the read and the write-back and returns the result of
the write-back.  So it returns 0 exactly when `arm64 == 0`, the read did not return -1
and the write-back returned 0. -/
theorem sregs_failure_paths (k : SregsKernel) (uninit : kvm_sregs) (arm64 : Int) :
    (arm64 ≠ 0 →
      (KVM_GET_and_SET_SREGS k uninit arm64).ret = -1 ∧
      (KVM_GET_and_SET_SREGS k uninit arm64).calls = []) ∧
    ((k.get_sregs uninit).1 = -1 →
      (KVM_GET_and_SET_SREGS k uninit 0).ret = -1 ∧
      (KVM_GET_and_SET_SREGS k uninit 0).calls = [SregsCall.get_sregs uninit]) ∧
    ((k.get_sregs uninit).1 ≠ -1 →
      (KVM_GET_and_SET_SREGS k uninit 0).ret
        = k.set_sregs (init_sregs (k.get_sregs uninit).2) ∧
      (KVM_GET_and_SET_SREGS k uninit 0).calls
        = [SregsCall.get_sregs uninit,
           SregsCall.set_sregs (init_sregs (k.get_sregs uninit).2)]) ∧
    ((KVM_GET_and_SET_SREGS k uninit arm64).ret = 0 ↔
      arm64 = 0 ∧ (k.get_sregs uninit).1 ≠ -1 ∧
        k.set_sregs (init_sregs (k.get_sregs uninit).2) = 0) := by
  refine ⟨?_, ?_, ?_, ?_⟩
  · intro h
    simp [KVM_GET_and_SET_SREGS, h]
  · intro h
    simp [KVM_GET_and_SET_SREGS, h]
  · intro h
    simp [KVM_GET_and_SET_SREGS, h]
  · by_cases ha : arm64 = 0
    · by_cases hr : (k.get_sregs uninit).1 = -1
      · simp [KVM_GET_and_SET_SREGS, ha, hr]
      · simp [KVM_GET_and_SET_SREGS, ha, hr]
    · simp [KVM_GET_and_SET_SREGS, ha]

/-- C20: when `KVM_GET_and_SET_SREGS` reads the state successfully (`arm64 == 0`), the
state written back is the state read with `base`, `limit`, `g` replaced on cs, ds, es,
fs, gs, ss, `db` replaced on cs and ss, and bit 0 of `cr0` set: every other member of
the six segments, `tr`, `ldt`, the descriptor tables, the other bits of `cr0`, `cr2`,
`cr3`, `cr4`, `cr8`, `efer`, `apic_base` and the interrupt bitmap are those read; and the
rewrite applied to the state written back changes nothing. -/
theorem sregs_frame (k : SregsKernel) (uninit : kvm_sregs)
    (hread : (k.get_sregs uninit).1 ≠ -1) :
    ∃ written : kvm_sregs,
      (KVM_GET_and_SET_SREGS k uninit 0).calls
        = [SregsCall.get_sregs uninit, SregsCall.set_sregs written] ∧
      written.cs = { (k.get_sregs uninit).2.cs with
                      base := 0, limit := 0xFFFFFFFF, g := 1, db := 1 } ∧
      written.ss = { (k.get_sregs uninit).2.ss with
                      base := 0, limit := 0xFFFFFFFF, g := 1, db := 1 } ∧
      written.ds = { (k.get_sregs uninit).2.ds with base := 0, limit := 0xFFFFFFFF, g := 1 } ∧
      written.es = { (k.get_sregs uninit).2.es with base := 0, limit := 0xFFFFFFFF, g := 1 } ∧
      written.fs = { (k.get_sregs uninit).2.fs with base := 0, limit := 0xFFFFFFFF, g := 1 } ∧
      written.gs = { (k.get_sregs uninit).2.gs with base := 0, limit := 0xFFFFFFFF, g := 1 } ∧
      written.tr = (k.get_sregs uninit).2.tr ∧
      written.ldt = (k.get_sregs uninit).2.ldt ∧
      written.gdt = (k.get_sregs uninit).2.gdt ∧
      written.idt = (k.get_sregs uninit).2.idt ∧
      written.cr0 = (k.get_sregs uninit).2.cr0 ||| 1 ∧
      (∀ i, i ≠ 0 → written.cr0.testBit i = (k.get_sregs uninit).2.cr0.testBit i) ∧
      written.cr2 = (k.get_sregs uninit).2.cr2 ∧
      written.cr3 = (k.get_sregs uninit).2.cr3 ∧
      written.cr4 = (k.get_sregs uninit).2.cr4 ∧
      written.cr8 = (k.get_sregs uninit).2.cr8 ∧
      written.efer = (k.get_sregs uninit).2.efer ∧
      written.apic_base = (k.get_sregs uninit).2.apic_base ∧
      written.interrupt_bitmap = (k.get_sregs uninit).2.interrupt_bitmap ∧
      init_sregs written = written := by
  have hlimit : u32_of_int (~~~ (0 : Int)) = 0xFFFFFFFF := by decide
  refine ⟨init_sregs (k.get_sregs uninit).2, ?_, ?_, ?_, ?_, ?_, ?_, ?_, rfl, rfl, rfl, rfl,
    rfl, ?_, rfl, rfl, rfl, rfl, rfl, rfl, rfl, init_sregs_idem _⟩
  · simp [KVM_GET_and_SET_SREGS, hread]
  · simp [init_sregs, set_flat, hlimit]
  · simp [init_sregs, set_flat, hlimit]
  · simp [init_sregs, set_flat, hlimit]
  · simp [init_sregs, set_flat, hlimit]
  · simp [init_sregs, set_flat, hlimit]
  · simp [init_sregs, set_flat, hlimit]
  · intro i hi
    exact testBit_or_one _ i hi

/-- C20 at a kernel that returns a real-mode reset state: the selector 0xf000 of cs and
bit 4 of `cr0` come through, and a second rewrite changes nothing. -/
theorem sregs_frame_witness :
    (reset_kernel.get_sregs zero_sregs).1 ≠ -1 ∧
    (init_sregs (reset_kernel.get_sregs zero_sregs).2).cs.selector = 0xf000 ∧
    (init_sregs (reset_kernel.get_sregs zero_sregs).2).cr0 = 0x11 ∧
    ∃ written : kvm_sregs,
      (KVM_GET_and_SET_SREGS reset_kernel zero_sregs 0).calls
        = [SregsCall.get_sregs zero_sregs, SregsCall.set_sregs written] ∧
      init_sregs written = written := by
  obtain ⟨w, h1, _, _, _, _, _, _, _, _, _, _, _, _, _, _, _, _, _, _, _, h2⟩ :=
    sregs_frame reset_kernel zero_sregs (by decide)
  exact ⟨by decide, by decide, by decide, w, h1, h2⟩

/-! ## CPUID: a failed query, and the signature leaf -/

/-- C14, the failing input: the supported-CPUID query returns -1 and leaves the local
buffer as it was.  `KVM_SET_CPUID2` does not stop: it rewrites the stale buffer, issues the
install call on the vCPU with it, and returns that call's result, 0. -/
theorem failed_query_still_installs :
    (failing_query_kernel.get_supported_cpuid
      { stale_cpuid with nent := stale_cpuid.entries.length }).1 = -1 ∧
    (KVM_SET_CPUID2 failing_query_kernel stale_cpuid).ret = 0 ∧
    (KVM_SET_CPUID2 failing_query_kernel stale_cpuid).calls
      = [CpuidCall.get_supported_cpuid { stale_cpuid with nent := 2 },
         CpuidCall.set_cpuid2 (rewrite_cpuid { stale_cpuid with nent := 2 })] := by
  decide

/-- C17: every entry of the queried set, at an index below `nent`, whose function is
`KVM_CPUID_SIGNATURE` is installed with `ebx = 0x4b4d564b`, `ecx = 0x564b4d56`,
`edx = 0x4d`, whose little-endian bytes in that order are "KVMKVMKVM" followed by three
zero bytes, with `eax = KVM_CPUID_FEATURES`, and with its function and index unchanged. -/
theorem signature_leaf_rewritten (k : CpuidKernel) (uninit : kvm_cpuid) (i : Nat)
    (e : kvm_cpuid_entry2)
    (hq : (k.get_supported_cpuid { uninit with nent := uninit.entries.length }).2.entries[i]?
        = some e)
    (hi : i < (k.get_supported_cpuid { uninit with nent := uninit.entries.length }).2.nent)
    (hsig : e.function = KVM_CPUID_SIGNATURE) :
    ∃ (installed : kvm_cpuid) (e2 : kvm_cpuid_entry2),
      (KVM_SET_CPUID2 k uninit).calls
        = [CpuidCall.get_supported_cpuid { uninit with nent := uninit.entries.length },
           CpuidCall.set_cpuid2 installed] ∧
      installed.entries[i]? = some e2 ∧
      e2.ebx = 0x4b4d564b ∧ e2.ecx = 0x564b4d56 ∧ e2.edx = 0x4d ∧
      le_bytes e2.ebx ++ le_bytes e2.ecx ++ le_bytes e2.edx
        = bytes_of "KVMKVMKVM" ++ [0, 0, 0] ∧
      e2.eax = KVM_CPUID_FEATURES ∧
      e2.function = e.function ∧ e2.index = e.index := by
  refine ⟨rewrite_cpuid (k.get_supported_cpuid { uninit with nent := uninit.entries.length }).2,
    rewrite_entry e, rfl, ?_, ?_, ?_, ?_, ?_, ?_, ?_, ?_⟩
  · rw [rewrite_cpuid_entries, if_pos hi, hq]
    rfl
  all_goals simp only [rewrite_entry, if_pos hsig]
  decide

/-- C17 at a kernel whose query returns the leaves 0 and `KVM_CPUID_SIGNATURE`: the
second entry is the one rewritten. -/
theorem signature_leaf_rewritten_witness :
    ((two_leaf_kernel.get_supported_cpuid
        { stale_cpuid with nent := stale_cpuid.entries.length }).2.entries[1]?
        = some (leaf KVM_CPUID_SIGNATURE) ∧
      1 < (two_leaf_kernel.get_supported_cpuid
        { stale_cpuid with nent := stale_cpuid.entries.length }).2.nent ∧
      (leaf KVM_CPUID_SIGNATURE).function = KVM_CPUID_SIGNATURE) ∧
    ∃ (installed : kvm_cpuid) (e2 : kvm_cpuid_entry2),
      (KVM_SET_CPUID2 two_leaf_kernel stale_cpuid).calls
        = [CpuidCall.get_supported_cpuid
             { stale_cpuid with nent := stale_cpuid.entries.length },
           CpuidCall.set_cpuid2 installed] ∧
      installed.entries[1]? = some e2 ∧
      e2.ebx = 0x4b4d564b ∧ e2.ecx = 0x564b4d56 ∧ e2.edx = 0x4d ∧
      le_bytes e2.ebx ++ le_bytes e2.ecx ++ le_bytes e2.edx
        = bytes_of "KVMKVMKVM" ++ [0, 0, 0] ∧
      e2.eax = KVM_CPUID_FEATURES ∧
      e2.function = (leaf KVM_CPUID_SIGNATURE).function ∧
      e2.index = (leaf KVM_CPUID_SIGNATURE).index :=
  ⟨by decide,
    signature_leaf_rewritten two_leaf_kernel stale_cpuid 1 (leaf KVM_CPUID_SIGNATURE)
      (by decide) (by decide) (by decide)⟩

/-! ## The guest image loader: bounds and the frame of the boot-params block -/

/-- C18, as stated, fails: with a 4608-byte image (boot header plus one sector) whose
header declares `cmdline_size = 0xFFFFFFFF` and a guest memory of 0x101000 bytes, which
holds the boot-params block, the 13-byte command line and the 4096-byte kernel payload,
the `memset` of line 205 writes 0xFFFFFFFF bytes from 0x20000, beyond the guest memory. -/
theorem huge_cmdline_size_writes_outside :
    (sizeof_boot_params + 512 ≤ 4608 ∧ boot + sizeof_boot_params ≤ 0x101000 ∧
      cmdline + 13 ≤ 0x101000 ∧ kernel + (4608 - 512) ≤ 0x101000) ∧
    load32 huge_cmdline_image off_cmdline_size = 0xFFFFFFFF ∧
    ¬ (∀ a ∈ load_guest_accesses zero_mem huge_cmdline_image 4608,
        a.buf = Buffer.guest → a.write = true → inside 0x101000 a) := by
  refine ⟨by decide, by decide, ?_⟩
  intro h
  have hbad := h { buf := Buffer.guest, write := true, start := cmdline, len := 0xFFFFFFFF }
    (by decide) rfl rfl
  revert hbad
  unfold inside
  decide

/-- C18 (amended): for every image at least as large as the boot header plus the
512-byte setup prefix, and every guest memory large enough to hold the boot-params block
at 0x10000, the 13-byte command line at 0x20000, the kernel payload of
`image_size - 512` bytes at 0x100000 and `cmdline_size` bytes from 0x20000, every access
of `load_guest` to the image stays inside `[0, image_size)` and every access to the guest
memory, read or write, stays inside it. -/
theorem load_guest_accesses_inside (memory image : Mem) (image_size memory_size : Nat)
    (himg : sizeof_boot_params + 512 ≤ image_size) (h64 : image_size < 2 ^ 64)
    (hboot : boot + sizeof_boot_params ≤ memory_size)
    (hstr : cmdline + 13 ≤ memory_size)
    (hkernel : kernel + (image_size - 512) ≤ memory_size)
    (hcmd : cmdline + load32 image off_cmdline_size ≤ memory_size) :
    ∀ a ∈ load_guest_accesses memory image image_size,
      (a.buf = Buffer.image → inside image_size a) ∧
      (a.buf = Buffer.guest → inside memory_size a) := by
  have hcs := load_guest_boot_cmdline_size memory image
  unfold load_guest_boot at hcs
  rw [← hcs] at hcmd
  have e1 : boot = 0x10000 := rfl
  have e2 : cmdline = 0x20000 := rfl
  have e3 : kernel = 0x100000 := rfl
  have e4 : sizeof_boot_params = 4096 := rfl
  have e5 : off_setup_sects < 4096 ∧ off_vid_mode + 2 ≤ 4096 ∧ off_type_of_loader < 4096 ∧
      off_ramdisk_image + 4 ≤ 4096 ∧ off_ram_size + 2 ≤ 4096 ∧ off_loadflags < 4096 ∧
      off_heap_end_ptr + 2 ≤ 4096 ∧ off_ext_loader_ver < 4096 ∧ off_cmd_line_ptr + 4 ≤ 4096 ∧
      off_cmdline_size + 4 ≤ 4096 := by decide
  intro a ha
  simp only [load_guest_accesses, setupsz, assign, Nat.one_mul, List.mem_cons,
    List.mem_singleton, List.not_mem_nil, or_false] at ha
  rcases ha with h | h | h | h | h | h | h | h | h | h | h | h | h | h | h | h | h | h | h <;>
    subst h <;> simp only [inside, false_implies, true_implies, and_true, true_and,
      reduceCtorEq] <;> omega

/-- C18 (amended) at a 4608-byte image whose header declares `cmdline_size = 0x800` and
a guest memory of 0x101000 bytes. -/
theorem load_guest_accesses_inside_witness :
    (sizeof_boot_params + 512 ≤ 4608 ∧ 4608 < 2 ^ 64 ∧
      boot + sizeof_boot_params ≤ 0x101000 ∧ cmdline + 13 ≤ 0x101000 ∧
      kernel + (4608 - 512) ≤ 0x101000 ∧
      cmdline + load32 cmdline_image off_cmdline_size ≤ 0x101000) ∧
    ∀ a ∈ load_guest_accesses zero_mem cmdline_image 4608,
      (a.buf = Buffer.image → inside 4608 a) ∧
      (a.buf = Buffer.guest → inside 0x101000 a) :=
  ⟨by decide,
    load_guest_accesses_inside zero_mem cmdline_image 4608 0x101000 (by decide) (by decide)
      (by decide) (by decide) (by decide) (by decide)⟩

/-- C19: for every image at least `sizeof(struct boot_params)` bytes long, after
`load_guest` every byte of the boot-params block at 0x10000 outside the members
`vid_mode`, `type_of_loader`, `ramdisk_image`, `ram_size`, `loadflags`, `heap_end_ptr`,
`ext_loader_ver` and `cmd_line_ptr` is the image byte at the same offset; `setup_sects`
and `cmdline_size` read as in the image; and `loadflags` is the loadflags of the image
or-ed with `CAN_USE_HEAP`, `KEEP_SEGMENTS` and 0x01. -/
theorem boot_block_frame (memory image : Mem) (image_size : Nat)
    (_himg : sizeof_boot_params ≤ image_size) :
    (∀ i, i < sizeof_boot_params → overwritten i = false →
      (load_guest memory image image_size).2 (0x10000 + i) = image i) ∧
    load8 (load_guest memory image image_size).2 (boot + off_setup_sects)
      = load8 image off_setup_sects ∧
    load32 (load_guest memory image image_size).2 (boot + off_cmdline_size)
      = load32 image off_cmdline_size ∧
    load8 (load_guest memory image image_size).2 (boot + off_loadflags)
      = load8 image off_loadflags ||| (CAN_USE_HEAP ||| KEEP_SEGMENTS ||| 0x01) := by
  have low := load_guest_below_cmdline memory image image_size
  refine ⟨?_, ?_, ?_, ?_⟩
  · intro i hi hf
    have hlt : 0x10000 + i < cmdline := by
      unfold sizeof_boot_params at hi; unfold cmdline; omega
    rw [low _ hlt]
    exact load_guest_boot_copy memory image i hi hf
  · rw [load8, low _ (by decide), load_guest_boot_copy memory image off_setup_sects
      (by decide) (by decide)]
    rfl
  · have hcs := load_guest_boot_cmdline_size memory image
    simp only [load32, load16, load8] at hcs ⊢
    rw [low _ (by decide), low _ (by decide), low _ (by decide), low _ (by decide)]
    exact hcs
  · rw [load8, low _ (by decide), load_guest_boot_loadflags, Nat.mod_mod, load8]
    have h : image off_loadflags % 256 < 256 := Nat.mod_lt _ (by decide)
    generalize image off_loadflags % 256 = c at h
    revert c
    set_option maxRecDepth 100000 in decide

/-- C19 at a 4608-byte image of 0xAA bytes: `loadflags` 0xAA becomes 0xEB. -/
theorem boot_block_frame_witness :
    sizeof_boot_params ≤ 4608 ∧
    load8 (aa_image 4608) off_loadflags ||| (CAN_USE_HEAP ||| KEEP_SEGMENTS ||| 0x01) = 0xEB ∧
    ((∀ i, i < sizeof_boot_params → overwritten i = false →
      (load_guest zero_mem (aa_image 4608) 4608).2 (0x10000 + i) = aa_image 4608 i) ∧
    load8 (load_guest zero_mem (aa_image 4608) 4608).2 (boot + off_setup_sects)
      = load8 (aa_image 4608) off_setup_sects ∧
    load32 (load_guest zero_mem (aa_image 4608) 4608).2 (boot + off_cmdline_size)
      = load32 (aa_image 4608) off_cmdline_size ∧
    load8 (load_guest zero_mem (aa_image 4608) 4608).2 (boot + off_loadflags)
      = load8 (aa_image 4608) off_loadflags ||| (CAN_USE_HEAP ||| KEEP_SEGMENTS ||| 0x01)) :=
  ⟨by decide, by decide, boot_block_frame zero_mem (aa_image 4608) 4608 (by decide)⟩

end Kvm
